import Mathlib

/-!
Verification of the Session & ACP Multiplexer backend of gemini-cli-desktop
(crates/backend).  The Rust source is shallowly embedded: pure decision logic
becomes Lean functions, the session registry becomes an association list that
is threaded explicitly, external effects (the url parser, the kill(1) command,
the CLI subprocess) become explicit inputs, and fallible code returns
`Except`/`Option`.  Strings are modelled as Lean `String` (a list of
characters); Rust byte indices are identified with character indices, which
agrees with the source on ASCII input.
-/

namespace GeminiDesktop

/-! ## Generic string helpers (Rust `str::contains`, `str::trim`) -/

/-- Character-list version of Rust `str::contains` (substring containment). -/
def listContainsSub : List Char → List Char → Bool
  | [], sub => sub.isEmpty
  | l@(_ :: t), sub => sub.isPrefixOf l || listContainsSub t sub

/-- Rust `str::contains(sub)` on strings. -/
def strContains (s sub : String) : Bool :=
  listContainsSub s.data sub.data

/-- Decimal digit character. -/
def digitChar (d : Nat) : Char := Char.ofNat (48 + d)

/-- Decimal digits of a number, most significant first (fuel-driven so that
it evaluates definitionally; the fuel `n + 1` always suffices). -/
def natDigitsAux : Nat → Nat → List Char
  | 0, _ => []
  | fuel + 1, n =>
      if n < 10 then [digitChar n]
      else natDigitsAux fuel (n / 10) ++ [digitChar (n % 10)]

/-- Decimal rendering of a natural number (Rust `Display` for integers). -/
def natToStr (n : Nat) : String := String.mk (natDigitsAux (n + 1) n)

/-- Rust `str::to_lowercase` (ASCII case folding suffices for every string
the source compares case-insensitively). -/
def strToLower (s : String) : String := String.mk (s.data.map Char.toLower)

/-- Rust `str::trim` over the character list. -/
def strTrim (s : String) : String :=
  String.mk (((s.data.dropWhile Char.isWhitespace).reverse.dropWhile
    Char.isWhitespace).reverse)

/-- Rust `str::starts_with` over the character list. -/
def strStartsWith (s pre : String) : Bool :=
  pre.data.isPrefixOf s.data

/-! ## URL guard (src/crates/backend/src/session/mod.rs, lines 29-156)

The url crate is external to the repository; a successfully parsed
`url::Url` is represented by the `Url` structure below (scheme plus host),
and `url::Url::host_str()` by `Host.hostStr`.  The host of a parsed URL is,
as in the url crate, either a domain name, an IPv4 address, or an IPv6
address (the latter serialized in brackets by `host_str`). -/

/-- Embedding of `std::net::IpAddr`: four octets, or eight 16-bit segments. -/
inductive IpAddr
  | v4 (a b c d : Nat)
  | v6 (s0 s1 s2 s3 s4 s5 s6 s7 : Nat)
deriving DecidableEq, Repr

/-- Host of a parsed `url::Url` (the url crate's `Host` enum). -/
inductive Host
  | domain (s : String)
  | ipv4 (a b c d : Nat)
  | ipv6 (s0 s1 s2 s3 s4 s5 s6 s7 : Nat)
deriving DecidableEq, Repr

/-- Bracket-less textual form of an IPv6 host.  Only the property that the
bracketed serialization below never equals a plain hostname matters to
`validate_base_url`; the precise compression of zero runs does not. -/
def ipv6Inner (s0 s1 s2 s3 s4 s5 s6 s7 : Nat) : String :=
  natToStr s0 ++ ":" ++ natToStr s1 ++ ":" ++ natToStr s2 ++ ":" ++ natToStr s3
    ++ ":" ++ natToStr s4 ++ ":" ++ natToStr s5 ++ ":" ++ natToStr s6 ++ ":"
    ++ natToStr s7

/-- Embedding of `url::Url::host_str()`: domains verbatim, IPv4 in dotted
decimal, IPv6 in brackets (as the url crate serializes it, which is why the
source compares against the bracketed string "[::1]"). -/
def Host.hostStr : Host → String
  | .domain s => s
  | .ipv4 a b c d =>
      natToStr a ++ "." ++ natToStr b ++ "." ++ natToStr c ++ "." ++ natToStr d
  | .ipv6 s0 s1 s2 s3 s4 s5 s6 s7 => "[" ++ ipv6Inner s0 s1 s2 s3 s4 s5 s6 s7 ++ "]"

/-- A parsed base URL: only the fields `validate_base_url` inspects. -/
structure Url where
  scheme : String
  host : Option Host
deriving DecidableEq, Repr

/-- Embedding of `host_str.parse::<IpAddr>()` inside `validate_base_url`.
`std`'s `IpAddr` parser accepts dotted-decimal IPv4 and bare IPv6 text.  The
url crate serializes an IPv4 host back to dotted decimal (which re-parses to
the same address), serializes an IPv6 host in brackets (which `std` rejects:
`"[::1]".parse::<IpAddr>()` is an error), and never yields a domain host
whose serialization is a textual IP (IPv4-shaped last labels are parsed as
IPv4 hosts by the WHATWG host parser, and a domain cannot contain the colon
an IPv6 literal needs). -/
def hostParseIpAddr : Host → Option IpAddr
  | .ipv4 a b c d => some (.v4 a b c d)
  | .ipv6 _ _ _ _ _ _ _ _ => none
  | .domain _ => none

/-- Embedding of `is_private_ip` (session/mod.rs lines 118-136). -/
def is_private_ip : IpAddr → Bool
  | .v4 a b _ _ =>
      a = 10
        || a = 127
        || (a = 172 && 16 ≤ b && b ≤ 31)
        || (a = 192 && b = 168)
        || (a = 169 && b = 254)
        || a = 0
  | .v6 s0 s1 s2 s3 s4 s5 s6 s7 =>
      (s0 = 0 && s1 = 0 && s2 = 0 && s3 = 0 && s4 = 0 && s5 = 0 && s6 = 0 && s7 = 1)
        || (s0 = 0 && s1 = 0 && s2 = 0 && s3 = 0 && s4 = 0 && s5 = 0 && s6 = 0 && s7 = 0)
        || (Nat.land s0 0xfe00 = 0xfc00)

/-- Embedding of `is_localhost_ip` (session/mod.rs lines 139-144). -/
def is_localhost_ip : IpAddr → Bool
  | .v4 a _ _ _ => a = 127
  | .v6 s0 s1 s2 s3 s4 s5 s6 s7 =>
      s0 = 0 && s1 = 0 && s2 = 0 && s3 = 0 && s4 = 0 && s5 = 0 && s6 = 0 && s7 = 1

/-- Embedding of `is_localhost_url` (session/mod.rs lines 147-156). -/
def is_localhost_url (url : Url) : Bool :=
  match url.host with
  | some h =>
      let s := strToLower h.hostStr
      s = "localhost" || s = "127.0.0.1" || s = "[::1]"
  | none => false

/-- The cloud-metadata blocklist of `validate_base_url` step 4. -/
def blockedHosts : List String :=
  ["169.254.169.254", "metadata.google.internal", "metadata"]

/-- The advisory provider allow-list of `validate_base_url` step 5 (the step
only logs; it never changes the result). -/
def allowedDomains : List String :=
  ["api.openai.com", "openrouter.ai", "api.anthropic.com",
   "generativelanguage.googleapis.com", "api.together.xyz", "api.groq.com",
   "dashscope.aliyuncs.com", "api.x.ai"]

/-- Error message of `validate_base_url` step 3 for a private IP. -/
def privateIpErrorMsg (ipText : String) : String :=
  "Cannot use private IP address: " ++ ipText ++
    ". Private IPs (10.0.0.0/8, 172.16.0.0/12, 192.168.0.0/16, 169.254.0.0/16) are blocked for security."

/-- Display form (Rust `Display`) of an address, as interpolated into the
private-IP error message.  Only used inside that message. -/
def ipDisplay : IpAddr → String
  | .v4 a b c d =>
      natToStr a ++ "." ++ natToStr b ++ "." ++ natToStr c ++ "." ++ natToStr d
  | .v6 s0 s1 s2 s3 s4 s5 s6 s7 => ipv6Inner s0 s1 s2 s3 s4 s5 s6 s7

/-- The cloud-metadata check, step 4 of `validate_base_url` (exact match,
case-insensitive); step 5 only logs a warning, so success follows it. -/
def validateHostBlocklist (host : Host) : Except String Unit :=
  if strToLower host.hostStr ∈ blockedHosts then
    .error ("Blocked hostname: " ++ host.hostStr ++
      ". Cloud metadata endpoints are not allowed for security.")
  else
    .ok ()

/-- Embedding of `validate_base_url` (session/mod.rs lines 36-115) applied to
an already-parsed URL (`url::Url::parse` succeeding is represented by having a
`Url` value at all; a parse failure yields the "Invalid URL format" error
upstream).  HTTP warnings and the provider allow-list only print, so they do
not appear in the result.  Step 1 checks the scheme (http merely warns),
step 2 requires a host, step 3 blocks private IP literals with the explicit
loopback exemption, step 4 is the metadata blocklist. -/
def validate_base_url (url : Url) : Except String Unit :=
  if url.scheme = "https" ∨ url.scheme = "http" then
    match url.host with
    | none => .error "URL must have a host"
    | some host =>
        match hostParseIpAddr host with
        | some ip =>
            if is_private_ip ip && !is_localhost_ip ip then
              .error (privateIpErrorMsg (ipDisplay ip))
            else
              validateHostBlocklist host
        | none => validateHostBlocklist host
  else
    .error ("Unsupported URL scheme: " ++ url.scheme ++ ". Only HTTP/HTTPS are allowed.")

/-! ## Credential scope (session/mod.rs, lines 158-353)

The process environment is modelled as an association list with set-replace
semantics; `std::env::set_var` and `std::env::remove_var` become `envSet`
and `envRemove`. -/

/-- The process environment: variable names with their values. -/
abbrev Env : Type := List (String × String)

/-- Embedding of `std::env::set_var`: replace the binding if present,
append it otherwise. -/
def envSet (env : Env) (name value : String) : Env :=
  match env with
  | [] => [(name, value)]
  | (n, v) :: rest =>
      if n = name then (name, value) :: rest else (n, v) :: envSet rest name value

/-- Embedding of `std::env::remove_var`. -/
def envRemove (env : Env) (name : String) : Env :=
  env.filter (fun p => p.1 ≠ name)

/-- Embedding of `std::env::var` as a lookup (only absence matters here). -/
def envLookup (env : Env) (name : String) : Option String :=
  (env.find? (fun p => p.1 = name)).map Prod.snd

/-- Embedding of `EnvVarGuard` (session/mod.rs lines 160-192): an RAII guard
remembering the variable name it set. -/
structure EnvVarGuard where
  var_name : String
deriving DecidableEq, Repr

/-- Embedding of `EnvVarGuard::new`: sets the variable and returns the guard
(the mutated environment is returned explicitly). -/
def EnvVarGuard.new (env : Env) (name value : String) : Env × EnvVarGuard :=
  (envSet env name value, ⟨name⟩)

/-- Embedding of `impl Drop for EnvVarGuard`: removes the guarded variable. -/
def envVarGuardDrop (env : Env) (g : EnvVarGuard) : Env :=
  envRemove env g.var_name

/-- Embedding of `SessionEnvironment` (session/mod.rs lines 195-198): the
ordered guard vector `_guards`. -/
structure SessionEnvironment where
  guards : List EnvVarGuard
deriving DecidableEq, Repr

/-- Dropping a `SessionEnvironment` drops its guards in order (`Vec` drops
front to back), removing each registered variable. -/
def sessionEnvironmentDrop (se : SessionEnvironment) (env : Env) : Env :=
  se.guards.foldl envVarGuardDrop env

/-- The variable names a credential scope registered. -/
def SessionEnvironment.names (se : SessionEnvironment) : List String :=
  se.guards.map EnvVarGuard.var_name

/-- Embedding of `QwenConfig` (session/mod.rs lines 330-336).  `base_url` is
kept in parsed form (see the `Url` note above). -/
structure QwenConfig where
  api_key : String
  base_url : Url
  model : String
  yolo : Option Bool
deriving DecidableEq, Repr

/-- Embedding of `GeminiAuthConfig` (session/mod.rs lines 338-345). -/
structure GeminiAuthConfig where
  method : String
  api_key : Option String
  vertex_project : Option String
  vertex_location : Option String
  yolo : Option Bool
deriving DecidableEq, Repr

/-- Embedding of `LLxprtConfig` (session/mod.rs lines 347-353).  A base URL
that is absent or blank in the source is `none` here (the source guards every
use with `!url.trim().is_empty()`). -/
structure LLxprtConfig where
  provider : String
  api_key : String
  model : String
  base_url : Option Url
deriving DecidableEq, Repr

/-- Rendering of a parsed URL back to text, used only as the stored value of
`OPENAI_BASE_URL` guards (no theorem depends on it). -/
def urlText (u : Url) : String :=
  u.scheme ++ "://" ++ (match u.host with | some h => h.hostStr | none => "")

/-- Embedding of `SessionEnvironment::setup_llxprt` (session/mod.rs lines
201-273): pushes provider-specific guards, validating any base URL first. -/
def SessionEnvironment.setup_llxprt (config : LLxprtConfig) (env : Env) :
    Except String (Env × SessionEnvironment) := do
  if config.provider = "anthropic" then
    let (env1, g1) := EnvVarGuard.new env "ANTHROPIC_API_KEY" config.api_key
    return (env1, ⟨[g1]⟩)
  else if config.provider = "openai" ∨ config.provider = "openrouter" then
    let (env1, g1) := EnvVarGuard.new env "OPENAI_API_KEY" config.api_key
    match config.base_url with
    | some u => do
        match validate_base_url u with
        | .error e => throw e
        | .ok _ =>
            let (env2, g2) := EnvVarGuard.new env1 "OPENAI_BASE_URL" (urlText u)
            return (env2, ⟨[g1, g2]⟩)
    | none => return (env1, ⟨[g1]⟩)
  else if config.provider = "gemini" ∨ config.provider = "google" then
    let (env1, g1) := EnvVarGuard.new env "GEMINI_API_KEY" config.api_key
    return (env1, ⟨[g1]⟩)
  else if config.provider = "qwen" then
    let (env1, g1) := EnvVarGuard.new env "QWEN_API_KEY" config.api_key
    return (env1, ⟨[g1]⟩)
  else if config.provider = "groq" then
    let (env1, g1) := EnvVarGuard.new env "GROQ_API_KEY" config.api_key
    return (env1, ⟨[g1]⟩)
  else if config.provider = "together" then
    let (env1, g1) := EnvVarGuard.new env "TOGETHER_API_KEY" config.api_key
    return (env1, ⟨[g1]⟩)
  else if config.provider = "xai" then
    let (env1, g1) := EnvVarGuard.new env "X_API_KEY" config.api_key
    return (env1, ⟨[g1]⟩)
  else
    -- custom providers fall back to the OpenAI-shaped variables
    let (env1, g1) := EnvVarGuard.new env "OPENAI_API_KEY" config.api_key
    match config.base_url with
    | some u => do
        match validate_base_url u with
        | .error e => throw e
        | .ok _ =>
            let (env2, g2) := EnvVarGuard.new env1 "OPENAI_BASE_URL" (urlText u)
            return (env2, ⟨[g1, g2]⟩)
    | none => return (env1, ⟨[g1]⟩)

/-- Embedding of `SessionEnvironment::setup_qwen` (session/mod.rs lines
275-293): validates the base URL, then sets the three OpenAI-shaped
variables. -/
def SessionEnvironment.setup_qwen (config : QwenConfig) (env : Env) :
    Except String (Env × SessionEnvironment) := do
  match validate_base_url config.base_url with
  | .error e => throw e
  | .ok _ =>
      let (env1, g1) := EnvVarGuard.new env "OPENAI_API_KEY" config.api_key
      let (env2, g2) := EnvVarGuard.new env1 "OPENAI_BASE_URL" (urlText config.base_url)
      let (env3, g3) := EnvVarGuard.new env2 "OPENAI_MODEL" config.model
      return (env3, ⟨[g1, g2, g3]⟩)

/-- Embedding of `SessionEnvironment::setup_gemini` (session/mod.rs lines
295-328): variables depend on the auth method; unknown methods set none. -/
def SessionEnvironment.setup_gemini (auth : GeminiAuthConfig) (env : Env) :
    Except String (Env × SessionEnvironment) :=
  if auth.method = "gemini-api-key" then
    match auth.api_key with
    | some k =>
        let (env1, g1) := EnvVarGuard.new env "GEMINI_API_KEY" k
        .ok (env1, ⟨[g1]⟩)
    | none => .ok (env, ⟨[]⟩)
  else if auth.method = "vertex-ai" then
    let (envP, gsP) :=
      match auth.vertex_project with
      | some p =>
          let (e, g) := EnvVarGuard.new env "GOOGLE_CLOUD_PROJECT" p
          (e, [g])
      | none => (env, [])
    let (envL, gsL) :=
      match auth.vertex_location with
      | some l =>
          let (e, g) := EnvVarGuard.new envP "GOOGLE_CLOUD_LOCATION" l
          (e, [g])
      | none => (envP, [])
    .ok (envL, ⟨gsP ++ gsL⟩)
  else
    .ok (env, ⟨[]⟩)

/-! ## JSON values and the JSON-RPC envelope

`serde_json::Value` is embedded as `Json` (numbers as integers suffice for
the ids and enum tags the multiplexer inspects).  The `rpc` module of the
crate is not under src/, so the envelope types are modelled from the spec. -/

/-- Embedding of `serde_json::Value`. -/
inductive Json
  | null
  | bool (b : Bool)
  | num (n : Int)
  | str (s : String)
  | arr (elems : List Json)
  | obj (fields : List (String × Json))
deriving Repr

/-- Embedding of `Value::get(key)` on objects (first binding wins); `None`
on non-objects, as in serde_json. -/
def Json.get : Json → String → Option Json
  | .obj fields, key => (fields.find? (fun p => p.1 = key)).map Prod.snd
  | _, _ => none

/-- Embedding of `Value::as_str`. -/
def Json.asStr : Json → Option String
  | .str s => some s
  | _ => none

/-- Embedding of `Value::as_u64` (non-negative integers only). -/
def Json.asNat : Json → Option Nat
  | .num n => if 0 ≤ n then some n.toNat else none
  | _ => none

/-- Modelled from the spec: `crate::rpc::JsonRpcError` (the repository's
`rpc` module is not under src/); standard code plus message. -/
structure JsonRpcError where
  code : Int
  message : String
deriving Repr

/-- Modelled from the spec: `crate::rpc::JsonRpcRequest`
`(jsonrpc:"2.0", id:u32, method, params)`. -/
structure JsonRpcRequest where
  jsonrpc : String
  id : Nat
  method : String
  params : Json
deriving Repr

/-- Modelled from the spec: `crate::rpc::JsonRpcResponse`
`(jsonrpc:"2.0", id, result?, error?)`. -/
structure JsonRpcResponse where
  jsonrpc : String
  id : Nat
  result : Option Json
  error : Option JsonRpcError
deriving Repr

/-! ## ACP protocol types (src/crates/backend/src/acp/mod.rs) with the serde
decodings the dispatcher relies on.  Parsers follow serde semantics: required
fields must be present with the right shape, unknown fields are ignored,
`Option` fields treat absent (or null) as `none`. -/

/-- Embedding of `acp::ContentBlock` (tag "type"). -/
inductive ContentBlock
  | text (text : String)
  | image (data : String) (mime_type : String)
  | audio (data : String) (mime_type : String)
  | resourceLink (uri : String) (name : String)
  | resource (uri : String) (rtext : String)
deriving DecidableEq, Repr

/-- Embedding of `acp::ToolCallStatus`. -/
inductive ToolCallStatus
  | pending | inProgress | completed | failed
deriving DecidableEq, Repr

/-- Embedding of `acp::ToolCallKind`. -/
inductive ToolCallKind
  | read | edit | execute | search | fetch | other
deriving DecidableEq, Repr

/-- Embedding of `acp::ToolCallContentItem` (tag "type"). -/
inductive ToolCallContentItem
  | content (content : ContentBlock)
  | diff (path old_text new_text : String)
deriving DecidableEq, Repr

/-- Embedding of `acp::Location`. -/
structure Location where
  path : String
  line : Option Nat
  column : Option Nat
deriving DecidableEq, Repr

/-- Embedding of `acp::SessionUpdate` (tag "sessionUpdate"). -/
inductive SessionUpdate
  | agentMessageChunk (content : ContentBlock)
  | agentThoughtChunk (content : ContentBlock)
  | toolCall (tool_call_id : String) (status : ToolCallStatus) (title : String)
      (content : List ToolCallContentItem) (locations : List Location)
      (kind : ToolCallKind)
  | toolCallUpdate (tool_call_id : String) (status : ToolCallStatus)
      (content : List ToolCallContentItem)
deriving DecidableEq, Repr

/-- Embedding of `acp::SessionUpdateParams`. -/
structure SessionUpdateParams where
  session_id : String
  update : SessionUpdate
deriving DecidableEq, Repr

/-- Embedding of `acp::PermissionOptionKind`. -/
inductive PermissionOptionKind
  | allowOnce | allowAlways | rejectOnce | rejectAlways
deriving DecidableEq, Repr

/-- Embedding of `acp::PermissionOption`. -/
structure PermissionOption where
  option_id : String
  name : String
  kind : PermissionOptionKind
deriving DecidableEq, Repr

/-- Embedding of `acp::PermissionToolCall`. -/
structure PermissionToolCall where
  tool_call_id : String
  status : ToolCallStatus
  title : String
  content : List ToolCallContentItem
  locations : List Location
  kind : ToolCallKind
deriving DecidableEq, Repr

/-- Embedding of `acp::SessionRequestPermissionParams`. -/
structure SessionRequestPermissionParams where
  session_id : String
  options : List PermissionOption
  tool_call : PermissionToolCall
deriving DecidableEq, Repr

/-- Embedding of `acp::PermissionOutcome` (tag "outcome"). -/
inductive PermissionOutcome
  | selected (option_id : String)
  | cancelled
deriving DecidableEq, Repr

/-- Embedding of `acp::PermissionResult`. -/
structure PermissionResult where
  outcome : PermissionOutcome
deriving DecidableEq, Repr

/-- Embedding of `acp::SessionPromptResult` (field rename "stopReason"). -/
structure SessionPromptResult where
  stop_reason : String
deriving DecidableEq, Repr

/-- Embedding of `acp::SessionPromptParams`. -/
structure SessionPromptParams where
  session_id : String
  prompt : List ContentBlock
deriving DecidableEq, Repr

/-- Modelled from the spec: `crate::cli::StreamAssistantMessageChunkParams`
with `chunk` holding optional `text` and `thought` strings (the `cli` module
is not under src/; shape from spec section 4.9). -/
structure AssistantChunk where
  text : Option String
  thought : Option String
deriving DecidableEq, Repr

/-- Modelled from the spec: the parameters of the legacy
`streamAssistantMessageChunk` notification. -/
structure StreamAssistantMessageChunkParams where
  chunk : AssistantChunk
deriving DecidableEq, Repr

/-! ## serde decoding of the ACP payloads the dispatcher parses -/

/-- serde decoding of an optional string field: absent or null is `none`, a
string is `some`, any other shape is an error (`Option.none` result of the
whole parse). -/
def decodeOptStrField (j : Json) (key : String) : Option (Option String) :=
  match j.get key with
  | none => some none
  | some .null => some none
  | some (.str s) => some (some s)
  | some _ => none

/-- serde decoding of a required string field. -/
def decodeStrField (j : Json) (key : String) : Option String :=
  (j.get key).bind Json.asStr

/-- serde decoding of `ContentBlock` (internally tagged by "type"). -/
def decodeContentBlock (j : Json) : Option ContentBlock :=
  match decodeStrField j "type" with
  | some "text" => (decodeStrField j "text").map ContentBlock.text
  | some "image" => do
      let d ← decodeStrField j "data"
      let m ← decodeStrField j "mime_type"
      pure (ContentBlock.image d m)
  | some "audio" => do
      let d ← decodeStrField j "data"
      let m ← decodeStrField j "mime_type"
      pure (ContentBlock.audio d m)
  | some "resource_link" => do
      let u ← decodeStrField j "uri"
      let n ← decodeStrField j "name"
      pure (ContentBlock.resourceLink u n)
  | some "resource" => do
      let r ← j.get "resource"
      let u ← decodeStrField r "uri"
      let t ← decodeStrField r "text"
      pure (ContentBlock.resource u t)
  | _ => none

/-- serde decoding of `ToolCallStatus`. -/
def decodeToolCallStatus (j : Json) : Option ToolCallStatus :=
  match j.asStr with
  | some "pending" => some .pending
  | some "in_progress" => some .inProgress
  | some "completed" => some .completed
  | some "failed" => some .failed
  | _ => none

/-- serde decoding of `ToolCallKind`. -/
def decodeToolCallKind (j : Json) : Option ToolCallKind :=
  match j.asStr with
  | some "read" => some .read
  | some "edit" => some .edit
  | some "execute" => some .execute
  | some "search" => some .search
  | some "fetch" => some .fetch
  | some "other" => some .other
  | _ => none

/-- serde decoding of `ToolCallContentItem` (internally tagged by "type"). -/
def decodeToolCallContentItem (j : Json) : Option ToolCallContentItem :=
  match decodeStrField j "type" with
  | some "content" => do
      let c ← j.get "content"
      let cb ← decodeContentBlock c
      pure (ToolCallContentItem.content cb)
  | some "diff" => do
      let p ← decodeStrField j "path"
      let o ← decodeStrField j "oldText"
      let n ← decodeStrField j "newText"
      pure (ToolCallContentItem.diff p o n)
  | _ => none

/-- serde decoding of an optional `u32` field. -/
def decodeOptNatField (j : Json) (key : String) : Option (Option Nat) :=
  match j.get key with
  | none => some none
  | some .null => some none
  | some (.num n) => if 0 ≤ n then some (some n.toNat) else none
  | some _ => none

/-- serde decoding of `Location`. -/
def decodeLocation (j : Json) : Option Location := do
  let p ← decodeStrField j "path"
  let l ← decodeOptNatField j "line"
  let c ← decodeOptNatField j "column"
  pure ⟨p, l, c⟩

/-- serde decoding of a JSON array via an element decoder. -/
def decodeArr (dec : Json → Option α) : Json → Option (List α)
  | .arr elems => elems.mapM dec
  | _ => none

/-- serde decoding of `SessionUpdate` (internally tagged by "sessionUpdate"). -/
def decodeSessionUpdate (j : Json) : Option SessionUpdate :=
  match decodeStrField j "sessionUpdate" with
  | some "agent_message_chunk" => do
      let c ← j.get "content"
      let cb ← decodeContentBlock c
      pure (SessionUpdate.agentMessageChunk cb)
  | some "agent_thought_chunk" => do
      let c ← j.get "content"
      let cb ← decodeContentBlock c
      pure (SessionUpdate.agentThoughtChunk cb)
  | some "tool_call" => do
      let tid ← decodeStrField j "toolCallId"
      let st ← (j.get "status").bind decodeToolCallStatus
      let ti ← decodeStrField j "title"
      let co ← (j.get "content").bind (decodeArr decodeToolCallContentItem)
      let lo ← (j.get "locations").bind (decodeArr decodeLocation)
      let k ← (j.get "kind").bind decodeToolCallKind
      pure (SessionUpdate.toolCall tid st ti co lo k)
  | some "tool_call_update" => do
      let tid ← decodeStrField j "toolCallId"
      let st ← (j.get "status").bind decodeToolCallStatus
      let co ← (j.get "content").bind (decodeArr decodeToolCallContentItem)
      pure (SessionUpdate.toolCallUpdate tid st co)
  | _ => none

/-- serde decoding of `SessionUpdateParams`. -/
def decodeSessionUpdateParams (j : Json) : Option SessionUpdateParams := do
  let sid ← decodeStrField j "sessionId"
  let u ← j.get "update"
  let upd ← decodeSessionUpdate u
  pure ⟨sid, upd⟩

/-- serde decoding of `PermissionOptionKind`. -/
def decodePermissionOptionKind (j : Json) : Option PermissionOptionKind :=
  match j.asStr with
  | some "allow_once" => some .allowOnce
  | some "allow_always" => some .allowAlways
  | some "reject_once" => some .rejectOnce
  | some "reject_always" => some .rejectAlways
  | _ => none

/-- serde decoding of `PermissionOption`. -/
def decodePermissionOption (j : Json) : Option PermissionOption := do
  let oid ← decodeStrField j "optionId"
  let n ← decodeStrField j "name"
  let k ← (j.get "kind").bind decodePermissionOptionKind
  pure ⟨oid, n, k⟩

/-- serde decoding of `PermissionToolCall`. -/
def decodePermissionToolCall (j : Json) : Option PermissionToolCall := do
  let tid ← decodeStrField j "toolCallId"
  let st ← (j.get "status").bind decodeToolCallStatus
  let ti ← decodeStrField j "title"
  let co ← (j.get "content").bind (decodeArr decodeToolCallContentItem)
  let lo ← (j.get "locations").bind (decodeArr decodeLocation)
  let k ← (j.get "kind").bind decodeToolCallKind
  pure ⟨tid, st, ti, co, lo, k⟩

/-- serde decoding of `SessionRequestPermissionParams`. -/
def decodeSessionRequestPermissionParams (j : Json) :
    Option SessionRequestPermissionParams := do
  let sid ← decodeStrField j "sessionId"
  let os ← (j.get "options").bind (decodeArr decodePermissionOption)
  let tc ← j.get "toolCall"
  let ptc ← decodePermissionToolCall tc
  pure ⟨sid, os, ptc⟩

/-- serde decoding of `SessionPromptResult` (field rename "stopReason"). -/
def decodeSessionPromptResult (j : Json) : Option SessionPromptResult :=
  (decodeStrField j "stopReason").map SessionPromptResult.mk

/-- serde decoding of `AssistantChunk` (both fields optional). -/
def decodeAssistantChunk (j : Json) : Option AssistantChunk := do
  match j with
  | .obj _ =>
      let t ← decodeOptStrField j "text"
      let th ← decodeOptStrField j "thought"
      pure ⟨t, th⟩
  | _ => none

/-- serde decoding of `StreamAssistantMessageChunkParams`. -/
def decodeStreamAssistantMessageChunkParams (j : Json) :
    Option StreamAssistantMessageChunkParams := do
  let c ← j.get "chunk"
  let ch ← decodeAssistantChunk c
  pure ⟨ch⟩

/-! ## serde encoding of the payloads the core sends back -/

/-- serde encoding of `PermissionOutcome` (internally tagged by "outcome",
with `optionId` renamed). -/
def encodePermissionOutcome : PermissionOutcome → Json
  | .selected oid => .obj [("outcome", .str "selected"), ("optionId", .str oid)]
  | .cancelled => .obj [("outcome", .str "cancelled")]

/-- serde encoding of `PermissionResult` (a struct with one `outcome` field
whose value is the internally-tagged `PermissionOutcome`). -/
def encodePermissionResult (r : PermissionResult) : Json :=
  .obj [("outcome", encodePermissionOutcome r.outcome)]

/-- serde encoding of `ContentBlock`. -/
def encodeContentBlock : ContentBlock → Json
  | .text t => .obj [("type", .str "text"), ("text", .str t)]
  | .image d m => .obj [("type", .str "image"), ("data", .str d), ("mime_type", .str m)]
  | .audio d m => .obj [("type", .str "audio"), ("data", .str d), ("mime_type", .str m)]
  | .resourceLink u n => .obj [("type", .str "resource_link"), ("uri", .str u), ("name", .str n)]
  | .resource u t =>
      .obj [("type", .str "resource"),
            ("resource", .obj [("uri", .str u), ("text", .str t)])]

/-- serde encoding of `SessionPromptParams`. -/
def encodeSessionPromptParams (p : SessionPromptParams) : Json :=
  .obj [("sessionId", .str p.session_id),
        ("prompt", .arr (p.prompt.map encodeContentBlock))]

/-! ## Internal events and the event forwarder

The `events` module of the crate is not under src/; the payload shapes are
modelled from the spec (section 6) and from their construction sites in
session/mod.rs. -/

/-- Modelled from the spec: `crate::events::CliIoType`. -/
inductive CliIoType
  | input | output | errorKind
deriving DecidableEq, Repr

/-- Modelled from the spec: `crate::events::CliIoPayload`. -/
structure CliIoPayload where
  io_type : CliIoType
  data : String
deriving DecidableEq, Repr

/-- Modelled from the spec: `crate::events::GeminiOutputPayload`. -/
structure GeminiOutputPayload where
  text : String
deriving DecidableEq, Repr

/-- Modelled from the spec: `crate::events::GeminiThoughtPayload`. -/
structure GeminiThoughtPayload where
  thought : String
deriving DecidableEq, Repr

/-- Modelled from the spec: `crate::events::ErrorPayload`. -/
structure ErrorPayload where
  error : String
deriving DecidableEq, Repr

/-- Modelled from the spec: `crate::events::SessionProgressStage` (section
4.6 progress stages). -/
inductive SessionProgressStage
  | starting | validatingCli | spawningProcess | initializing
  | authenticating | creatingSession | ready
deriving DecidableEq, Repr

/-- Modelled from the spec: `crate::events::SessionProgressPayload`. -/
structure SessionProgressPayload where
  stage : SessionProgressStage
  message : String
  progress_percent : Option Nat
  details : Option String
deriving DecidableEq, Repr

/-- Modelled from the spec and the construction sites in session/mod.rs:
`crate::events::InternalEvent`.  The three deprecated legacy tool-call
variants carry no data here because the forwarder ignores them (session/
mod.rs lines 667-678). -/
inductive InternalEvent
  | cliIo (session_id : String) (payload : CliIoPayload)
  | geminiOutput (session_id : String) (payload : GeminiOutputPayload)
  | geminiThought (session_id : String) (payload : GeminiThoughtPayload)
  | legacyToolCall
  | legacyToolCallUpdate
  | legacyToolCallConfirmation
  | geminiTurnFinished (session_id : String)
  | errorEvent (session_id : String) (payload : ErrorPayload)
  | sessionProgress (session_id : String) (payload : SessionProgressPayload)
  | acpSessionUpdate (session_id : String) (update : SessionUpdate)
  | acpPermissionRequest (session_id : String) (request_id : Nat)
      (request : SessionRequestPermissionParams)
deriving DecidableEq, Repr

/-- Payload as it reaches the event sink (the UI). -/
inductive EmittedPayload
  | cliIo (p : CliIoPayload)
  | text (s : String)
  | boolean (b : Bool)
  | progress (p : SessionProgressPayload)
  | update (u : SessionUpdate)
  | permission (request_id : Nat) (request : SessionRequestPermissionParams)
deriving DecidableEq, Repr

/-- Embedding of the event-forwarding task (session/mod.rs lines 643-733):
maps an internal event to the channel name and payload handed to the event
sink; deprecated variants are dropped. -/
def forwardInternalEvent : InternalEvent → Option (String × EmittedPayload)
  | .cliIo sid p => some ("cli-io-" ++ sid, .cliIo p)
  | .geminiOutput sid p => some ("ai-output-" ++ sid, .text p.text)
  | .geminiThought sid p => some ("ai-thought-" ++ sid, .text p.thought)
  | .legacyToolCall => none
  | .legacyToolCallUpdate => none
  | .legacyToolCallConfirmation => none
  | .geminiTurnFinished sid => some ("ai-turn-finished-" ++ sid, .boolean true)
  | .errorEvent sid p => some ("ai-error-" ++ sid, .text p.error)
  | .sessionProgress sid p => some ("session-progress-" ++ sid, .progress p)
  | .acpSessionUpdate sid u => some ("acp-session-update-" ++ sid, .update u)
  | .acpPermissionRequest sid rid req =>
      some ("acp-permission-request-" ++ sid, .permission rid req)

/-! ## The notification dispatcher (session/mod.rs lines 1552-1747) -/

/-- Events produced by the `streamAssistantMessageChunk` arm: a thought
event for `chunk.thought`, then an output event for `chunk.text`. -/
def streamChunkEvents (session_id : String) (j : Json) : List InternalEvent :=
  match decodeStreamAssistantMessageChunkParams j with
  | some params =>
      (match params.chunk.thought with
       | some thought => [.geminiThought session_id ⟨thought⟩]
       | none => []) ++
      (match params.chunk.text with
       | some text => [.geminiOutput session_id ⟨text⟩]
       | none => [])
  | none => []

/-- Events produced by the `session/update` arm: text chunks become output
and thought events, tool-call updates are re-emitted as pure ACP session
updates, non-text content is logged and dropped. -/
def sessionUpdateEvents (session_id : String) (j : Json) : List InternalEvent :=
  match decodeSessionUpdateParams j with
  | some params =>
      match params.update with
      | .agentMessageChunk content =>
          match content with
          | .text text => [.geminiOutput session_id ⟨text⟩]
          | _ => []
      | .agentThoughtChunk content =>
          match content with
          | .text text => [.geminiThought session_id ⟨text⟩]
          | _ => []
      | .toolCall tid st ti co lo k =>
          [.acpSessionUpdate session_id (.toolCall tid st ti co lo k)]
      | .toolCallUpdate tid st co =>
          [.acpSessionUpdate session_id (.toolCallUpdate tid st co)]
  | none => []

/-- Events produced by the `session/request_permission` arm: forwarded with
the agent's numeric request id when both the params and the id parse. -/
def requestPermissionEvents (session_id : String) (j params : Json) :
    List InternalEvent :=
  match decodeSessionRequestPermissionParams params, (j.get "id").bind Json.asNat with
  | some req, some id => [.acpPermissionRequest session_id id req]
  | _, _ => []

/-- Dispatch over the parsed method name (the `match method` in
`handle_cli_output_line`); unrecognised methods are ignored. -/
def methodDispatch (session_id : String) (method : String) (j : Json) :
    List InternalEvent :=
  if method = "streamAssistantMessageChunk" then
    streamChunkEvents session_id ((j.get "params").getD .null)
  else if method = "session/update" then
    sessionUpdateEvents session_id ((j.get "params").getD .null)
  else if method = "session/request_permission" then
    requestPermissionEvents session_id j ((j.get "params").getD .null)
  else
    []

/-- Embedding of `handle_cli_output_line` (session/mod.rs lines 1552-1747):
the inbound line is given by its serde_json parse result (`none` when the
line is not JSON); the returned list is the internal events sent on
`event_tx`, in order. -/
def handle_cli_output_line (session_id : String) (parsed : Option Json) :
    List InternalEvent :=
  match parsed with
  | none => []
  | some j =>
      match (j.get "method").bind Json.asStr with
      | some method => methodDispatch session_id method j
      | none =>
          match j.get "result" with
          | some r =>
              match decodeSessionPromptResult r with
              | some result =>
                  if result.stop_reason = "end_turn" then
                    [.geminiTurnFinished session_id]
                  else
                    []
              | none => []
          | none => []

/-! ## Mention parser (src/crates/backend/src/lib.rs, lines 324-402)

The regex `@([^\s,;!?\(\)\[\]\{\}]+)` is embedded as a left-to-right
non-overlapping scan: at a position holding `@`, the capture is the maximal
following run of characters outside the excluded class.  Rust byte indices
are identified with character positions (they agree on ASCII input, and the
properties proved below do not depend on the identification). -/

/-- A character the mention regex may include in a captured token (anything
that is neither whitespace nor one of the excluded punctuation marks). -/
def isTokenChar (c : Char) : Bool :=
  !c.isWhitespace && !([',', ';', '!', '?', '(', ')', '[', ']',
    Char.ofNat 123, Char.ofNat 125].contains c)

/-- Left-to-right scan for the regex matches: returns each capture as the
position of its `@` together with the captured token. -/
def scanMentions : List Char → Nat → List (Nat × List Char)
  | [], _ => []
  | c :: rest, i =>
      if c = '@' then
        let tok := rest.takeWhile isTokenChar
        if tok.isEmpty then
          scanMentions rest (i + 1)
        else
          (i, tok) :: scanMentions (rest.drop tok.length) (i + 1 + tok.length)
      else
        scanMentions rest (i + 1)
termination_by l _ => l.length
decreasing_by
  · simp
  · simp only [List.length_cons, List.length_drop]
    omega
  · simp

/-- Embedding of `Path::file_name().and_then(to_str)` for the mention path:
the final `/`-separated component, with empty and `.` components stripped and
`..` yielding `none` (POSIX behaviour of `std::path::Path::file_name`). -/
def pathFileName (path : String) : Option String :=
  let comps := (path.data.splitOn '/').filter
    (fun c => !c.isEmpty && c ≠ ['.'])
  match comps.getLast? with
  | some l => if l = ['.', '.'] then none else some (String.mk l)
  | none => none

/-- The email guard of the source: a match is skipped when it does not start
the message and the character right before its `@` is non-whitespace. -/
def emailGuardSkips (msg : List Char) (start : Nat) : Bool :=
  decide (0 < start) &&
    (match msg.get? (start - 1) with
     | some c => !c.isWhitespace
     | none => false)

/-- The capture-processing loop of `parse_mentions_to_content_blocks`: walks
the matches with the `last_end` cursor, skipping a match whose preceding
character is non-whitespace (the email guard), emitting the gap text and a
resource link otherwise, and finally the trailing text. -/
def buildBlocks (msg : List Char) : List (Nat × List Char) → Nat → List ContentBlock
  | [], lastEnd =>
      let tail := msg.drop lastEnd
      if tail.isEmpty then [] else [.text (String.mk tail)]
  | (start, tok) :: ms, lastEnd =>
      if emailGuardSkips msg start then
        buildBlocks msg ms lastEnd
      else
        let gap := (msg.drop lastEnd).take (start - lastEnd)
        let uri := String.mk tok
        let name := (pathFileName uri).getD uri
        (if gap.isEmpty then [] else [.text (String.mk gap)]) ++
          (.resourceLink uri name :: buildBlocks msg ms (start + 1 + tok.length))

/-- Embedding of `GeminiBackend::parse_mentions_to_content_blocks` (lib.rs
lines 324-402); the working directory is accepted and ignored as in the
source. -/
def parse_mentions_to_content_blocks (message : String)
    (working_directory : String) : List ContentBlock :=
  let _ := working_directory
  let cs := message.data
  let blocks := buildBlocks cs (scanMentions cs 0) 0
  if blocks.isEmpty then [.text message] else blocks

/-- Rendering of one block back to text: text verbatim, a mention as `@`
followed by its uri (the parser emits no other variants). -/
def renderBlock : ContentBlock → List Char
  | .text t => t.data
  | .resourceLink uri _ => '@' :: uri.data
  | _ => []

/-- Rendering a block list back to text, restoring the `@` prefix of each
mention (the reconstruction reading of the spec). -/
def renderBlocks (blocks : List ContentBlock) : List Char :=
  (blocks.map renderBlock).flatten

/-! ## Session registry (session/mod.rs lines 368-522, 1383-1550) and the
facade operations over it (lib.rs)

The `HashMap<String, PersistentSession>` behind the registry mutex is
embedded as an association list with unique keys; `get_mut` followed by
field mutation becomes `updateReg`.  OS handles (stdin, the child, the
outbound channel sender) are abstracted to numeric tokens: only their
presence or absence is ever branched on. -/

/-- Embedding of `PersistentSession` (session/mod.rs lines 368-382); the
RPC logger is omitted (it only appends to a log file) and the credential
scope is the `SessionEnvironment` defined above. -/
structure PersistentSession where
  conversation_id : String
  acp_session_id : Option String
  pid : Option Nat
  created_at : Nat
  is_alive : Bool
  stdin : Option Nat
  message_sender : Option Nat
  child : Option Nat
  working_directory : String
  backend_type : String
  environment : Option SessionEnvironment
deriving DecidableEq, Repr

/-- Embedding of `ProcessStatus` (session/mod.rs lines 384-391). -/
structure ProcessStatus where
  conversation_id : String
  pid : Option Nat
  created_at : Nat
  is_alive : Bool
  backend_type : String
deriving DecidableEq, Repr

/-- Embedding of `impl From<&PersistentSession> for ProcessStatus`. -/
def ProcessStatus.ofSession (s : PersistentSession) : ProcessStatus :=
  ⟨s.conversation_id, s.pid, s.created_at, s.is_alive, s.backend_type⟩

/-- The registry map guarded by the `SessionManager` mutex. -/
abbrev Registry : Type := List (String × PersistentSession)

/-- Embedding of `HashMap::get`. -/
def lookupReg (reg : Registry) (id : String) : Option PersistentSession :=
  (reg.find? (fun p => p.1 = id)).map Prod.snd

/-- Embedding of `HashMap::get_mut` followed by in-place mutation: apply `f`
to the entry with key `id`, leave everything else unchanged. -/
def updateReg (reg : Registry) (id : String) (f : PersistentSession → PersistentSession) :
    Registry :=
  reg.map (fun p => if p.1 = id then (p.1, f p.2) else p)

/-- Embedding of `SessionManager::get_process_statuses` (session/mod.rs
lines 418-446): the status projection of every entry. -/
def get_process_statuses (reg : Registry) : List ProcessStatus :=
  reg.map (fun p => ProcessStatus.ofSession p.2)

/-- Outcome of the external kill command (`kill -9`/`taskkill`) run by
`kill_process` when no child handle is held. -/
structure KillOutput where
  success : Bool
  stderr : String
deriving DecidableEq, Repr

/-- The field clearing at the end of a successful `kill_process` (session/
mod.rs lines 504-507); `child` was already taken on the child-handle path
and is absent on the others. -/
def clearKilledSession (s : PersistentSession) : PersistentSession :=
  { s with is_alive := false, pid := none, stdin := none,
           message_sender := none, child := none }

/-- Embedding of `SessionManager::kill_process` (session/mod.rs lines
448-511).  With a held child handle the kill result is ignored; otherwise
the external command's output decides: a "no such process" (or, on Windows,
"not found") stderr is treated as success, any other failure aborts before
the fields are cleared.  A missing entry is a silent success. -/
def kill_process (reg : Registry) (conversation_id : String)
    (killCmd : KillOutput) : Registry × Except String Unit :=
  match lookupReg reg conversation_id with
  | none => (reg, .ok ())
  | some session =>
      if session.child.isSome then
        (updateReg reg conversation_id clearKilledSession, .ok ())
      else
        match session.pid with
        | some pid =>
            -- POSIX branch of the source; Windows checks "not found" instead
            if killCmd.success
                || strContains (strToLower killCmd.stderr) "no such process" then
              (updateReg reg conversation_id clearKilledSession, .ok ())
            else
              (reg, .error ("Failed to kill process " ++ natToStr pid ++ ": " ++
                killCmd.stderr))
        | none => (updateReg reg conversation_id clearKilledSession, .ok ())

/-- Embedding of the epilogue of `handle_session_io_internal` (session/
mod.rs lines 1500-1518), reached after any of the loop's break conditions
(stdout EOF, a stdin write error, or the outbound channel closing): flips
liveness off and clears the stdin handle and outbound sender of the entry,
if present.  The epilogue only prints; it sends no internal event and emits
nothing to the event sink, which the second component records. -/
def ioLoopExit (reg : Registry) (session_id : String) :
    Registry × List (String × EmittedPayload) :=
  (updateReg reg session_id
    (fun s => { s with is_alive := false, stdin := none, message_sender := none }),
   [])

/-- Embedding of `send_response_to_cli` (session/mod.rs lines 1520-1550):
builds the JSON-RPC response with the caller-supplied request id and pushes
its serialization onto the session's outbound channel when a sender is
present; the returned value is the pushed response (`none` when no session
or no sender exists). -/
def send_response_to_cli (reg : Registry) (session_id : String)
    (request_id : Nat) (result : Option Json) (error : Option JsonRpcError) :
    Option JsonRpcResponse :=
  let response : JsonRpcResponse := ⟨"2.0", request_id, result, error⟩
  match lookupReg reg session_id with
  | some session =>
      match session.message_sender with
      | some _ => some response
      | none => none
  | none => none

/-! ## Facade operations (src/crates/backend/src/lib.rs) -/

/-- Embedding of the outcome-string conversion in
`GeminiBackend::handle_tool_confirmation` (lib.rs lines 434-447): the
explicitly listed outcome strings and the wildcard arm all map to
`Selected`, so only "cancel" yields `Cancelled`. -/
def permissionOutcomeOfString (outcome : String) : PermissionOutcome :=
  if outcome = "proceed_once" ∨ outcome = "proceed_always"
      ∨ outcome = "proceed_always_server" ∨ outcome = "proceed_always_tool"
      ∨ outcome = "modify_with_editor" then
    .selected outcome
  else if outcome = "cancel" then
    .cancelled
  else
    .selected outcome

/-- Embedding of `GeminiBackend::handle_tool_confirmation` (lib.rs lines
405-467): resolves the conversation owning the ACP session id, builds the
`PermissionResult`, and sends it back on the outbound channel.  The returned
event list is what the function sends on any event channel: it sends
nothing (the source deliberately does not synthesise a completion update;
lib.rs lines 462-465). -/
def handle_tool_confirmation (reg : Registry) (acp_session_id : String)
    (request_id : Nat) (tool_call_id outcome : String) :
    Except String (Option JsonRpcResponse × List InternalEvent) :=
  let _ := tool_call_id
  let conversation_id? := (reg.find?
    (fun p => p.2.acp_session_id = some acp_session_id)).map Prod.fst
  match conversation_id? with
  | none => .error ("No conversation found for ACP session ID: " ++ acp_session_id)
  | some conversation_id =>
      let response_data : PermissionResult := ⟨permissionOutcomeOfString outcome⟩
      let pushed := send_response_to_cli reg conversation_id request_id
        (some (encodePermissionResult response_data)) none
      .ok (pushed, [])

/-- Embedding of `GeminiBackend::send_message` (lib.rs lines 250-321):
looks the session up, requires an outbound sender and an ACP session id,
parses mentions, allocates the next request id and pushes a
`session/prompt` request; the successful result is that request. -/
def send_message (reg : Registry) (next_request_id : Nat)
    (session_id message : String) : Except String JsonRpcRequest :=
  match lookupReg reg session_id with
  | none => .error ("Session not found: " ++ session_id)
  | some session =>
      match session.message_sender with
      | none => .error "No message sender available"
      | some _ =>
          match session.acp_session_id with
          | none => .error "No ACP session ID available"
          | some acp_session_id =>
              -- the source looks the working directory up a second time
              let working_directory :=
                match lookupReg reg session_id with
                | some s => s.working_directory
                | none => "."
              let prompt_blocks :=
                parse_mentions_to_content_blocks message working_directory
              let prompt_params : SessionPromptParams := ⟨acp_session_id, prompt_blocks⟩
              .ok ⟨"2.0", next_request_id, "session/prompt",
                encodeSessionPromptParams prompt_params⟩

/-- Outcome of the facade's `initialize_session` guard (lib.rs lines
193-247): either an idempotent reuse of the live session, or a hand-off to
the session module's `initialize_session` (after terminating a live session
of a different backend kind), or a propagated kill failure. -/
inductive FacadeInitOutcome
  | reused
  | proceedSpawn (killedExisting : Bool)
  | failed (msg : String)
deriving DecidableEq, Repr

/-- Embedding of `GeminiBackend::initialize_session` (lib.rs lines
193-247) up to the hand-off: the requested backend is "qwen" when a Qwen
config is present and "gemini" otherwise (the facade has no LLxprt
parameter); a live same-backend session short-circuits to success. -/
def facadeInitializeSession (reg : Registry) (session_id : String)
    (hasBackendConfig : Bool) (killCmd : KillOutput) :
    Registry × FacadeInitOutcome :=
  let requested_backend := if hasBackendConfig then "qwen" else "gemini"
  match lookupReg reg session_id with
  | some existing =>
      if existing.is_alive then
        if existing.backend_type = requested_backend then
          (reg, .reused)
        else
          match kill_process reg session_id killCmd with
          | (reg1, .ok _) => (reg1, .proceedSpawn true)
          | (reg1, .error e) => (reg1, .failed e)
      else
        (reg, .proceedSpawn false)
  | none => (reg, .proceedSpawn false)

/-! ## The ACP handshake (session/mod.rs lines 606-1381)

The CLI subprocess is external; its stdout is modelled as a list of lines,
each given with its serde_json parse result, and its replies to the three
handshake requests as explicit `Except` values. -/

/-- One line read from the CLI's stdout: the raw text and its serde_json
parse result after trimming (`none` when the trimmed line is not valid
JSON). -/
structure CliLine where
  raw : String
  parsedJson : Option Json

/-- The left-brace character, used for the framing check. -/
def leftBraceChar : Char := Char.ofNat 123

/-- Whether the read loop of `send_jsonrpc_request` accepts a line: the
trimmed text is non-empty, starts with a brace or bracket, and parses as
JSON (session/mod.rs lines 580-593). -/
def cliLineAccepted (l : CliLine) : Bool :=
  let t := strTrim l.raw
  !t.isEmpty
    && (strStartsWith t (String.mk [leftBraceChar]) || strStartsWith t "[")
    && l.parsedJson.isSome

/-- Embedding of the read loop of `send_jsonrpc_request` (session/mod.rs
lines 557-594): keep reading until an accepted line arrives.  At end of
stream `read_line` keeps returning `Ok(0)` with an empty line, so the loop
spins; the fuel bounds how many reads we observe, and exhausting it (or an
empty stream) represents the loop never returning. -/
def readJsonLine : Nat → List CliLine → Option (Json × List CliLine)
  | 0, _ => none
  | fuel + 1, [] => readJsonLine fuel []
  | fuel + 1, l :: rest =>
      if cliLineAccepted l then
        match l.parsedJson with
        | some j => some (j, rest)
        | none => readJsonLine fuel rest
      else
        readJsonLine fuel rest

/-- serde decoding of `JsonRpcResponse` from a parsed line. -/
def decodeJsonRpcResponse (j : Json) : Option JsonRpcResponse := do
  let v ← decodeStrField j "jsonrpc"
  let id ← (j.get "id").bind Json.asNat
  let result :=
    match j.get "result" with
    | some .null => none
    | some r => some r
    | none => none
  let error ←
    match j.get "error" with
    | some .null => pure none
    | some e => do
        let code ←
          match e.get "code" with
          | some (.num n) => some n
          | _ => none
        let msg ← decodeStrField e "message"
        pure (some (JsonRpcError.mk code msg))
    | none => pure none
  pure ⟨v, id, result, error⟩

/-- Result of one `send_jsonrpc_request` call.  `okNone` is the `Ok(None)`
value the caller's retry loop matches on; `diverged` stands for the read
loop never returning (silent CLI or end of stream). -/
inductive SendResult
  | response (r : JsonRpcResponse)
  | rpcError (msg : String)
  | okNone
  | diverged
deriving Repr

/-- Embedding of `send_jsonrpc_request` (session/mod.rs lines 525-604)
after the write: read until a JSON line arrives, decode it as a response,
and fail when it carries an `error` member.  Note that no branch produces
`okNone`. -/
def send_jsonrpc_request (fuel : Nat) (lines : List CliLine) :
    SendResult × List CliLine :=
  match readJsonLine fuel lines with
  | none => (.diverged, [])
  | some (j, rest) =>
      match decodeJsonRpcResponse j with
      | none => (.rpcError "Failed to parse response", rest)
      | some response =>
          match response.error with
          | some e => (.rpcError ("CLI Error: " ++ e.message), rest)
          | none => (.response response, rest)

/-- Outcome of the initialize step, together with how many 2-second sleeps
were performed on the way. -/
inductive InitStepOutcome
  | gotResponse (r : JsonRpcResponse) (sleeps : Nat)
  | failedStep (msg : String) (sleeps : Nat)
  | diverged (sleeps : Nat)
deriving Repr

/-- Embedding of the initialize retry loop of `initialize_session`
(session/mod.rs lines 1128-1163): `retries` is incremented at the top of
each iteration and the loop bails out with "Max number of retries reached"
when it hits `MAX_RETRIES = 20` before sending; only an `Ok(None)` result
sleeps 2 seconds and retries. -/
def initializeRetryLoop (fuel : Nat) : Nat → List CliLine → Nat → InitStepOutcome
  | retries, lines, sleeps =>
      let retries1 := retries + 1
      -- the counter starts at 0, so the source's equality test with
      -- MAX_RETRIES is first true exactly when the counter reaches 20
      if _h : 20 ≤ retries1 then
        .failedStep "Max number of retries reached" sleeps
      else
        match send_jsonrpc_request fuel lines with
        | (.okNone, rest) => initializeRetryLoop fuel retries1 rest (sleeps + 1)
        | (.response r, _) => .gotResponse r sleeps
        | (.rpcError e, _) => .failedStep e sleeps
        | (.diverged, _) => .diverged sleeps
termination_by retries _ _ => 20 - retries
decreasing_by omega

/-- The initialize step as executed: the retry loop started at zero. -/
def initializeStep (fuel : Nat) (lines : List CliLine) : InitStepOutcome :=
  initializeRetryLoop fuel 0 lines 0

/-- Handshake configuration: which of the three optional configs the caller
supplied (session/mod.rs lines 607-614). -/
structure SessionConfigs where
  backend_config : Option QwenConfig
  gemini_auth : Option GeminiAuthConfig
  llxprt_config : Option LLxprtConfig

/-- Embedding of the auth-method selection (session/mod.rs lines
1223-1238): a provided Gemini auth config wins, the LLxprt and Qwen
backends use "gemini-api-key", and the default is "oauth-personal". -/
def authMethodId (cfg : SessionConfigs) : String :=
  match cfg.gemini_auth with
  | some auth => auth.method
  | none =>
      if cfg.llxprt_config.isSome then "gemini-api-key"
      else if cfg.backend_config.isSome then "gemini-api-key"
      else "oauth-personal"

/-- The CLI's replies to the `session/new` phase: the first `session/new`,
the `authenticate` (if sent), and the re-issued `session/new` (if sent).
An `Except.error` is an RPC failure as surfaced by `send_jsonrpc_request`. -/
structure CliResponder where
  sessionNew1 : Except String JsonRpcResponse
  auth : Except String JsonRpcResponse
  sessionNew2 : Except String JsonRpcResponse

/-- A request the handshake sends during the `session/new` phase. -/
inductive HandshakeRequest
  | sessionNew
  | authenticate (method_id : String)
deriving DecidableEq, Repr

/-- Embedding of the `session/new` phase of `initialize_session` (session/
mod.rs lines 1196-1295): send `session/new`; on an error whose message
contains "Authentication required", send one `authenticate` with the
configured method id and, only if it succeeds, re-issue `session/new`; any
other error is fatal immediately.  Returns the requests sent, in order, and
the phase's result. -/
def sessionNewPhase (cfg : SessionConfigs) (cli : CliResponder) :
    List HandshakeRequest × Except String JsonRpcResponse :=
  match cli.sessionNew1 with
  | .ok r => ([.sessionNew], .ok r)
  | .error msg =>
      if strContains msg "Authentication required" then
        match cli.auth with
        | .error e => ([.sessionNew, .authenticate (authMethodId cfg)], .error e)
        | .ok _ =>
            ([.sessionNew, .authenticate (authMethodId cfg), .sessionNew],
             cli.sessionNew2)
      else
        ([.sessionNew], .error msg)

/-! ## Claim C1: credential-scope cleanup -/

/-- Removing a variable makes it absent. -/
theorem envLookup_envRemove_self (env : Env) (name : String) :
    envLookup (envRemove env name) name = none := by
  have h : (envRemove env name).find? (fun p => p.1 = name) = none := by
    rw [List.find?_eq_none]
    intro a ha
    have h2 := (List.mem_filter.mp ha).2
    simp only [ne_eq, decide_not, Bool.not_eq_eq_eq_not, Bool.not_true,
      decide_eq_false_iff_not] at h2
    simp [h2]
  simp [envLookup, h]

/-- Removal of any variable preserves absence of a variable. -/
theorem envLookup_envRemove_of_none (env : Env) (name other : String)
    (h : envLookup env name = none) :
    envLookup (envRemove env other) name = none := by
  simp only [envLookup, Option.map_eq_none'] at h ⊢
  rw [List.find?_eq_none] at h ⊢
  intro a ha
  exact h a (List.mem_filter.mp ha).1

/-- Dropping any guards preserves absence of a variable (drops only ever
remove). -/
theorem foldl_guardDrop_of_none (gs : List EnvVarGuard) (env : Env) (name : String)
    (h : envLookup env name = none) :
    envLookup (gs.foldl envVarGuardDrop env) name = none := by
  induction gs generalizing env with
  | nil => simpa using h
  | cons g gs ih =>
      simp only [List.foldl_cons]
      exact ih _ (envLookup_envRemove_of_none _ _ _ h)

/-- Dropping a guard list removes every guarded name. -/
theorem foldl_guardDrop_clears (gs : List EnvVarGuard) (env : Env) (name : String)
    (h : name ∈ gs.map EnvVarGuard.var_name) :
    envLookup (gs.foldl envVarGuardDrop env) name = none := by
  induction gs generalizing env with
  | nil => simp at h
  | cons g gs ih =>
      simp only [List.map_cons, List.mem_cons] at h
      simp only [List.foldl_cons]
      rcases h with h | h
      · subst h
        exact foldl_guardDrop_of_none gs _ _ (envLookup_envRemove_self env _)
      · exact ih _ h

/-- C1: for every credential scope (`SessionEnvironment`), every environment
variable name it registered is absent from the process environment after the
scope is dropped — whatever environment the drop runs against, hence
regardless of whether the session succeeded or failed. -/
theorem credentialScope_clears_registered_names (se : SessionEnvironment)
    (env : Env) (name : String) (h : name ∈ se.names) :
    envLookup (sessionEnvironmentDrop se env) name = none :=
  foldl_guardDrop_clears se.guards env name h

/-- Witness for C1: a scope built by `setup_gemini` registers
`GEMINI_API_KEY`, and after the drop the variable is absent. -/
theorem credentialScope_clears_registered_names_witness :
    SessionEnvironment.setup_gemini
        ⟨"gemini-api-key", some "k", none, none, none⟩ []
      = .ok ([("GEMINI_API_KEY", "k")], ⟨[⟨"GEMINI_API_KEY"⟩]⟩)
    ∧ envLookup
        (sessionEnvironmentDrop ⟨[⟨"GEMINI_API_KEY"⟩]⟩ [("GEMINI_API_KEY", "k")])
        "GEMINI_API_KEY" = none :=
  ⟨rfl,
   credentialScope_clears_registered_names ⟨[⟨"GEMINI_API_KEY"⟩]⟩
     [("GEMINI_API_KEY", "k")] "GEMINI_API_KEY" (by simp [SessionEnvironment.names])⟩

/-! ## Claim C2: URL guard coverage of private ranges -/

/-- A middle segment is always found by the substring scan. -/
theorem listContainsSub_append (pre sub post : List Char) :
    listContainsSub (pre ++ sub ++ post) sub = true := by
  induction pre with
  | nil =>
      cases hsub : sub with
      | nil =>
          cases hl : ([] : List Char) ++ [] ++ post with
          | nil => simp [listContainsSub]
          | cons x t => simp [listContainsSub, List.isPrefixOf]
      | cons c cs =>
          simp only [List.nil_append, List.cons_append, listContainsSub]
          have : (c :: cs).isPrefixOf (c :: (cs ++ post)) = true := by
            rw [List.isPrefixOf_iff_prefix]
            exact ⟨post, rfl⟩
          simp [this]
  | cons p pre ih =>
      simp only [List.cons_append, listContainsSub]
      rw [Bool.or_eq_true]
      right
      simpa using ih

/-- String version of the previous lemma. -/
theorem strContains_of_append (pre sub post : String) :
    strContains (pre ++ sub ++ post) sub = true := by
  have h : (pre ++ sub ++ post).data = pre.data ++ sub.data ++ post.data := by
    simp
  rw [strContains, h]
  exact listContainsSub_append pre.data sub.data post.data

/-- The private-IP error message splits around its category text. -/
theorem privateIpErrorMsg_split (t : String) :
    privateIpErrorMsg t
      = ("Cannot use private IP address: " ++ t ++ ". ") ++ "Private IPs" ++
        " (10.0.0.0/8, 172.16.0.0/12, 192.168.0.0/16, 169.254.0.0/16) are blocked for security." := by
  have htail :
      (". Private IPs (10.0.0.0/8, 172.16.0.0/12, 192.168.0.0/16, 169.254.0.0/16) are blocked for security." : String)
        = ". " ++ ("Private IPs" ++
            " (10.0.0.0/8, 172.16.0.0/12, 192.168.0.0/16, 169.254.0.0/16) are blocked for security.") := rfl
  unfold privateIpErrorMsg
  rw [htail]
  simp [String.append_assoc]

/-- Counterexample for C2 as stated: the guard accepts an IPv4 loopback
literal (the source exempts `is_localhost_ip`) and an IPv6 unique-local
literal (the bracketed `host_str` of an IPv6 host never parses as a std
`IpAddr`), although both are in the claim's reject list. -/
theorem validate_base_url_claim_counterexample :
    is_private_ip (.v4 127 0 0 1) = true
    ∧ validate_base_url ⟨"https", some (.ipv4 127 0 0 1)⟩ = .ok ()
    ∧ is_private_ip (.v6 0xfc00 0 0 0 0 0 0 1) = true
    ∧ validate_base_url ⟨"https", some (.ipv6 0xfc00 0 0 0 0 0 0 1)⟩ = .ok () :=
  ⟨by decide, rfl, by decide, rfl⟩

/-- C2 (amended): for every http/https URL whose host is an IPv4 literal in
one of the private ranges and outside 127/8, `validate_base_url` returns an
error whose message mentions that private IPs are blocked. -/
theorem validate_base_url_rejects_private_nonloopback_ipv4
    (scheme : String) (a b c d : Nat)
    (hscheme : scheme = "https" ∨ scheme = "http")
    (hpriv : is_private_ip (.v4 a b c d) = true)
    (hloop : is_localhost_ip (.v4 a b c d) = false) :
    validate_base_url ⟨scheme, some (.ipv4 a b c d)⟩
        = .error (privateIpErrorMsg (ipDisplay (.v4 a b c d)))
    ∧ strContains (privateIpErrorMsg (ipDisplay (.v4 a b c d))) "Private IPs" = true := by
  constructor
  · rcases hscheme with h | h <;> subst h <;>
      simp [validate_base_url, hostParseIpAddr, hpriv, hloop]
  · rw [privateIpErrorMsg_split]
    exact strContains_of_append _ _ _

/-- Witness for the amended C2 at the concrete address 10.0.0.5. -/
theorem validate_base_url_rejects_private_nonloopback_ipv4_witness :
    validate_base_url ⟨"https", some (.ipv4 10 0 0 5)⟩
        = .error (privateIpErrorMsg (ipDisplay (.v4 10 0 0 5)))
    ∧ strContains (privateIpErrorMsg (ipDisplay (.v4 10 0 0 5))) "Private IPs" = true :=
  validate_base_url_rejects_private_nonloopback_ipv4 "https" 10 0 0 5
    (Or.inl rfl) (by decide) (by decide)

/-! ## Registry lemmas shared by the session-lifecycle claims -/

/-- Updating an entry rewrites its lookup through the update function. -/
theorem lookupReg_updateReg_self (reg : Registry) (id : String)
    (f : PersistentSession → PersistentSession) :
    lookupReg (updateReg reg id f) id = (lookupReg reg id).map f := by
  induction reg with
  | nil => rfl
  | cons p rest ih =>
      simp only [lookupReg, updateReg, List.map_cons, List.find?_cons] at ih ⊢
      by_cases h : p.1 = id
      · simp [h]
      · simp only [if_neg h, decide_eq_false h]
        exact ih

/-- Updating one entry leaves every other lookup unchanged. -/
theorem lookupReg_updateReg_other (reg : Registry) (id other : String)
    (f : PersistentSession → PersistentSession) (h : other ≠ id) :
    lookupReg (updateReg reg id f) other = lookupReg reg other := by
  induction reg with
  | nil => rfl
  | cons p rest ih =>
      simp only [lookupReg, updateReg, List.map_cons, List.find?_cons] at ih ⊢
      by_cases hp : p.1 = id
      · have hpo : ¬ p.1 = other := fun he => h (he ▸ hp)
        simp only [if_pos hp, decide_eq_false hpo]
        exact ih
      · simp only [if_neg hp]
        by_cases hpo : p.1 = other
        · simp [hpo]
        · simp only [decide_eq_false hpo]
          exact ih

/-- Updating an entry never changes the key set of the registry. -/
theorem updateReg_keys (reg : Registry) (id : String)
    (f : PersistentSession → PersistentSession) :
    (updateReg reg id f).map Prod.fst = reg.map Prod.fst := by
  induction reg with
  | nil => rfl
  | cons p rest ih =>
      by_cases h : p.1 = id <;> simp [updateReg, h] at ih ⊢ <;> simpa using ih

/-! ## Claim C3: the authenticate-and-retry path of the handshake -/

/-- Counterexample for C3 as stated: when `session/new` fails with
"Authentication required" but the authenticate request itself fails, the
core sends the single authenticate and stops — `session/new` is not
re-issued, contradicting the claim's unconditional "and then re-issues
session/new". -/
theorem handshake_auth_claim_counterexample :
    sessionNewPhase ⟨none, none, none⟩
        ⟨.error "Authentication required", .error "auth failed",
         .ok ⟨"2.0", 3, none, none⟩⟩
      = ([.sessionNew, .authenticate "oauth-personal"], .error "auth failed") := rfl

/-- C3 (amended): when the first `session/new` fails with a message
containing "Authentication required", exactly one authenticate request is
sent, with the method id from the Gemini auth config when present,
"gemini-api-key" for the LLxprt and Qwen backends and "oauth-personal"
otherwise; `session/new` is re-issued only if the authenticate succeeds,
and the handshake fails right after a failed authenticate.  On any other
`session/new` error the handshake fails immediately with no authenticate. -/
theorem handshake_auth_required_path (cfg : SessionConfigs)
    (cli : CliResponder) (msg : String)
    (h1 : cli.sessionNew1 = .error msg) :
    (strContains msg "Authentication required" = true →
      (∀ r, cli.auth = .ok r →
        (sessionNewPhase cfg cli).1
            = [.sessionNew, .authenticate (authMethodId cfg), .sessionNew]
          ∧ (sessionNewPhase cfg cli).2 = cli.sessionNew2)
      ∧ (∀ e, cli.auth = .error e →
        (sessionNewPhase cfg cli).1
            = [.sessionNew, .authenticate (authMethodId cfg)]
          ∧ (sessionNewPhase cfg cli).2 = .error e))
    ∧ (strContains msg "Authentication required" = false →
        (sessionNewPhase cfg cli).1 = [.sessionNew]
          ∧ (sessionNewPhase cfg cli).2 = .error msg)
    ∧ (∀ ga, cfg.gemini_auth = some ga → authMethodId cfg = ga.method)
    ∧ (cfg.gemini_auth = none →
        (cfg.llxprt_config.isSome ∨ cfg.backend_config.isSome) →
        authMethodId cfg = "gemini-api-key")
    ∧ (cfg.gemini_auth = none → cfg.llxprt_config = none →
        cfg.backend_config = none → authMethodId cfg = "oauth-personal") := by
  refine ⟨?_, ?_, ?_, ?_, ?_⟩
  · intro hc
    constructor
    · intro r hr
      simp [sessionNewPhase, h1, hc, hr]
    · intro e he
      simp [sessionNewPhase, h1, hc, he]
  · intro hc
    simp [sessionNewPhase, h1, hc]
  · intro ga hga
    simp [authMethodId, hga]
  · intro hga hsome
    rcases hsome with h | h
    · simp [authMethodId, hga, h]
    · cases hl : cfg.llxprt_config <;> simp [authMethodId, hga, hl, h]
  · intro hga hl hb
    simp [authMethodId, hga, hl, hb]

/-- Witness for the amended C3: with no configs and a succeeding
authenticate, the phase sends initialize-new, authenticate "oauth-personal"
and a second session/new, whose reply becomes the result. -/
theorem handshake_auth_required_path_witness :
    (sessionNewPhase ⟨none, none, none⟩
        ⟨.error "Authentication required", .ok ⟨"2.0", 2, none, none⟩,
         .ok ⟨"2.0", 3, none, none⟩⟩).1
      = [.sessionNew, .authenticate (authMethodId ⟨none, none, none⟩), .sessionNew]
    ∧ (sessionNewPhase ⟨none, none, none⟩
        ⟨.error "Authentication required", .ok ⟨"2.0", 2, none, none⟩,
         .ok ⟨"2.0", 3, none, none⟩⟩).2
      = .ok ⟨"2.0", 3, none, none⟩ :=
  ((handshake_auth_required_path ⟨none, none, none⟩
      ⟨.error "Authentication required", .ok ⟨"2.0", 2, none, none⟩,
       .ok ⟨"2.0", 3, none, none⟩⟩ "Authentication required" rfl).1
    (by decide)).1 ⟨"2.0", 2, none, none⟩ rfl

/-! ## Claim C4: transport failure -/

/-- A live session used by the C4 counterexample. -/
def c4Session : PersistentSession :=
  ⟨"c1", some "s1", some 42, 0, true, some 1, some 2, some 7, ".", "gemini", none⟩

/-- Counterexample for C4 as stated: after the I/O loop exits for session
"c1", the exit path emits no event at all (in particular no
process-status-changed), and `send_message` fails with "No message sender
available", not with a "session not found" failure (the entry is still in
the registry, merely dead). -/
theorem transport_failure_claim_counterexample :
    (ioLoopExit [("c1", c4Session)] "c1").2 = []
    ∧ send_message (ioLoopExit [("c1", c4Session)] "c1").1 1000 "c1" "hi"
        = .error "No message sender available" :=
  ⟨rfl, rfl⟩

/-- C4 (amended): after a transport failure the I/O loop's exit path flips
the session's liveness to false and clears its stdin handle and outbound
sender, emitting nothing itself; every subsequent `send_message` for that
conversation id then fails with "No message sender available" (the
"Session not found" failure is reserved for ids absent from the
registry). -/
theorem transport_failure_marks_session_dead (reg : Registry) (id : String)
    (s : PersistentSession) (nid : Nat) (m : String)
    (h : lookupReg reg id = some s) :
    (ioLoopExit reg id).2 = []
    ∧ lookupReg (ioLoopExit reg id).1 id
        = some { s with is_alive := false, stdin := none, message_sender := none }
    ∧ send_message (ioLoopExit reg id).1 nid id m
        = .error "No message sender available" := by
  have hl : lookupReg (ioLoopExit reg id).1 id
      = some { s with is_alive := false, stdin := none, message_sender := none } := by
    simp only [ioLoopExit]
    rw [lookupReg_updateReg_self, h]
    rfl
  refine ⟨rfl, hl, ?_⟩
  simp [send_message, hl]

/-- Witness for the amended C4 at a concrete one-session registry. -/
theorem transport_failure_marks_session_dead_witness :
    (ioLoopExit [("c1", c4Session)] "c1").2 = []
    ∧ lookupReg (ioLoopExit [("c1", c4Session)] "c1").1 "c1"
        = some { c4Session with is_alive := false, stdin := none, message_sender := none }
    ∧ send_message (ioLoopExit [("c1", c4Session)] "c1").1 1000 "c1" "hi"
        = .error "No message sender available" :=
  transport_failure_marks_session_dead [("c1", c4Session)] "c1" c4Session
    1000 "hi" rfl

/-! ## Claim C5: facade initialize_session idempotence and backend switch -/

/-- On every successful kill of a present entry, the registry is exactly
the entry-clearing update. -/
theorem kill_process_ok_updates (reg : Registry) (id : String)
    (killCmd : KillOutput) (s : PersistentSession)
    (h : lookupReg reg id = some s)
    (hok : (kill_process reg id killCmd).2 = .ok ()) :
    (kill_process reg id killCmd).1 = updateReg reg id clearKilledSession := by
  unfold kill_process at hok ⊢
  rw [h] at hok ⊢
  dsimp only at hok ⊢
  by_cases hc : s.child.isSome = true
  · rw [if_pos hc]
  · rw [if_neg hc] at hok ⊢
    cases hp : s.pid with
    | none => rfl
    | some pid =>
        rw [hp] at hok
        dsimp only at hok ⊢
        by_cases hk : (killCmd.success
            || strContains (strToLower killCmd.stderr) "no such process") = true
        · rw [if_pos hk]
        · rw [if_neg hk] at hok
          exact absurd hok (by simp)

/-- C5: a facade `initialize_session` call for a conversation id that
already has a live session of the requested backend kind is a no-op — it
reports the idempotent reuse outcome, the registry is untouched, so no
child is spawned and no new credential scope is created; when the live
session has a different backend kind, the existing session is terminated
(its entry cleared) before the spawn proceeds. -/
theorem facade_initialize_idempotent_or_switch (reg : Registry) (id : String)
    (hasBackendConfig : Bool) (killCmd : KillOutput) (s : PersistentSession)
    (h : lookupReg reg id = some s) (halive : s.is_alive = true) :
    (s.backend_type = (if hasBackendConfig then "qwen" else "gemini") →
      facadeInitializeSession reg id hasBackendConfig killCmd = (reg, .reused))
    ∧ (s.backend_type ≠ (if hasBackendConfig then "qwen" else "gemini") →
        (kill_process reg id killCmd).2 = .ok () →
        facadeInitializeSession reg id hasBackendConfig killCmd
            = ((kill_process reg id killCmd).1, .proceedSpawn true)
          ∧ lookupReg (facadeInitializeSession reg id hasBackendConfig killCmd).1 id
            = some (clearKilledSession s)) := by
  constructor
  · intro hb
    simp [facadeInitializeSession, h, halive, hb]
  · intro hb hok
    have hupd := kill_process_ok_updates reg id killCmd s h hok
    have hfac : facadeInitializeSession reg id hasBackendConfig killCmd
        = ((kill_process reg id killCmd).1, .proceedSpawn true) := by
      unfold facadeInitializeSession
      rw [h]
      simp only [halive, if_true]
      rw [if_neg hb]
      cases hkp : kill_process reg id killCmd with
      | mk reg1 res =>
          rw [hkp] at hok
          cases res with
          | ok u => rfl
          | error e => exact absurd hok (by simp)
    refine ⟨hfac, ?_⟩
    rw [hfac]
    simp only
    rw [hupd, lookupReg_updateReg_self, h]
    rfl

/-- A live Qwen session used by the C5 witness. -/
def c5Session : PersistentSession :=
  ⟨"c2", some "s2", some 43, 0, true, some 1, some 2, some 7, ".", "qwen", none⟩

/-- Witness for C5: requesting the same backend reuses the live session and
leaves the registry unchanged; requesting the other backend clears the
existing entry before proceeding. -/
theorem facade_initialize_idempotent_or_switch_witness :
    facadeInitializeSession [("c2", c5Session)] "c2" true ⟨true, ""⟩
        = ([("c2", c5Session)], .reused)
    ∧ facadeInitializeSession [("c2", c5Session)] "c2" false ⟨true, ""⟩
        = ((kill_process [("c2", c5Session)] "c2" ⟨true, ""⟩).1, .proceedSpawn true)
    ∧ lookupReg (facadeInitializeSession [("c2", c5Session)] "c2" false ⟨true, ""⟩).1 "c2"
        = some (clearKilledSession c5Session) :=
  ⟨(facade_initialize_idempotent_or_switch [("c2", c5Session)] "c2" true
      ⟨true, ""⟩ c5Session rfl rfl).1 (by decide),
   ((facade_initialize_idempotent_or_switch [("c2", c5Session)] "c2" false
      ⟨true, ""⟩ c5Session rfl rfl).2 (by decide) rfl).1,
   ((facade_initialize_idempotent_or_switch [("c2", c5Session)] "c2" false
      ⟨true, ""⟩ c5Session rfl rfl).2 (by decide) rfl).2⟩

/-! ## Claim C6: tool-confirmation replies -/

/-- The outcome-string conversion collapses to: "cancel" is cancelled and
everything else is selected with the outcome as the option id. -/
theorem permissionOutcomeOfString_eq (outcome : String) :
    permissionOutcomeOfString outcome
      = if outcome = "cancel" then .cancelled else .selected outcome := by
  unfold permissionOutcomeOfString
  by_cases h1 : outcome = "proceed_once" ∨ outcome = "proceed_always"
      ∨ outcome = "proceed_always_server" ∨ outcome = "proceed_always_tool"
      ∨ outcome = "modify_with_editor"
  · have h2 : outcome ≠ "cancel" := by
      rcases h1 with h | h | h | h | h <;> subst h <;> decide
    rw [if_pos h1, if_neg h2]
  · rw [if_neg h1]

/-- C6: for every tool-confirmation call that resolves to a session with an
outbound sender, the pushed JSON-RPC response carries the agent's original
request id and the permission result mapping "cancel" to `Cancelled` and
every other outcome string to `Selected` with that string; the call sends
no internal event, in particular no synthetic session update. -/
theorem tool_confirmation_reply (reg : Registry) (acp_session_id : String)
    (request_id : Nat) (tool_call_id outcome : String)
    (conv : String) (s : PersistentSession)
    (hfind : reg.find? (fun p => p.2.acp_session_id = some acp_session_id)
        = some (conv, s))
    (hlook : lookupReg reg conv = some s)
    (hsender : s.message_sender.isSome = true) :
    handle_tool_confirmation reg acp_session_id request_id tool_call_id outcome
      = .ok (some ⟨"2.0", request_id,
          some (encodePermissionResult
            ⟨if outcome = "cancel" then .cancelled else .selected outcome⟩),
          none⟩, []) := by
  unfold handle_tool_confirmation send_response_to_cli
  rw [hfind]
  dsimp only [Option.map]
  rw [hlook]
  dsimp only
  cases hms : s.message_sender with
  | none => rw [hms] at hsender; simp at hsender
  | some ms =>
      dsimp only
      rw [permissionOutcomeOfString_eq]

/-- A session used by the C6 witness. -/
def c6Session : PersistentSession :=
  ⟨"c1", some "s1", some 42, 0, true, some 1, some 2, some 7, ".", "gemini", none⟩

/-- Witness for C6: a "proceed_once" reply to agent request 42 pushes a
response with id 42 and the selected outcome, and emits no event. -/
theorem tool_confirmation_reply_witness :
    handle_tool_confirmation [("c1", c6Session)] "s1" 42 "tool-1" "proceed_once"
      = .ok (some ⟨"2.0", 42,
          some (encodePermissionResult ⟨.selected "proceed_once"⟩), none⟩, []) :=
  tool_confirmation_reply [("c1", c6Session)] "s1" 42 "tool-1" "proceed_once"
    "c1" c6Session rfl rfl rfl

/-! ## Claim C7: the initialize retry bound -/

/-- On a stream with no acceptable JSON line the read loop never returns. -/
theorem readJsonLine_none_of_noJson (fuel : Nat) (lines : List CliLine)
    (h : ∀ l ∈ lines, cliLineAccepted l = false) :
    readJsonLine fuel lines = none := by
  induction fuel generalizing lines with
  | zero => rfl
  | succ fuel ih =>
      cases lines with
      | nil => exact ih [] (fun l hl => absurd hl (List.not_mem_nil l))
      | cons l rest =>
          have hl := h l (List.mem_cons_self l rest)
          rw [readJsonLine, if_neg (by simp [hl])]
          exact ih rest (fun x hx => h x (List.mem_cons_of_mem l hx))

/-- C7 evidence: `send_jsonrpc_request` has no code path returning the
`Ok(None)` marker the initialize retry loop matches on, so the documented
retry-with-sleep (and the 20-attempt cap) can never fire; on a CLI stream
with no parseable JSON the initialize step simply never completes, with
zero sleeps performed. -/
theorem initialize_retry_never_fires (fuel : Nat) (lines : List CliLine) :
    (send_jsonrpc_request fuel lines).1 ≠ .okNone
    ∧ ((∀ l ∈ lines, cliLineAccepted l = false) →
        initializeStep fuel lines = .diverged 0) := by
  constructor
  · unfold send_jsonrpc_request
    cases hr : readJsonLine fuel lines with
    | none => simp
    | some p =>
        obtain ⟨j, rest⟩ := p
        cases hd : decodeJsonRpcResponse j with
        | none => simp [hd]
        | some r => cases he : r.error <;> simp [hd, he]
  · intro h
    have hsend : send_jsonrpc_request fuel lines = (.diverged, []) := by
      unfold send_jsonrpc_request
      rw [readJsonLine_none_of_noJson fuel lines h]
    simp [initializeStep, initializeRetryLoop, hsend]

/-- Witness for C7's evidence theorem at the concrete silent stream. -/
theorem initialize_retry_never_fires_witness :
    (send_jsonrpc_request 5 [⟨"Data collection is disabled.", none⟩]).1 ≠ .okNone
    ∧ initializeStep 5 [⟨"Data collection is disabled.", none⟩] = .diverged 0 :=
  ⟨(initialize_retry_never_fires 5 [⟨"Data collection is disabled.", none⟩]).1,
   (initialize_retry_never_fires 5 [⟨"Data collection is disabled.", none⟩]).2
     (by decide)⟩

/-! ## Claim C8: the end_turn dispatch -/

/-- The method-dispatch arms never produce a turn-finished event (they emit
output, thought, ACP session-update and permission events only). -/
theorem methodDispatch_no_turnFinished (sid method : String) (j : Json) :
    InternalEvent.geminiTurnFinished sid ∉ methodDispatch sid method j := by
  unfold methodDispatch
  by_cases h1 : method = "streamAssistantMessageChunk"
  · rw [if_pos h1]
    unfold streamChunkEvents
    cases decodeStreamAssistantMessageChunkParams ((j.get "params").getD .null) with
    | none => simp
    | some p =>
        obtain ⟨⟨t, th⟩⟩ := p
        cases th <;> cases t <;> simp
  · rw [if_neg h1]
    by_cases h2 : method = "session/update"
    · rw [if_pos h2]
      unfold sessionUpdateEvents
      cases decodeSessionUpdateParams ((j.get "params").getD .null) with
      | none => simp
      | some p =>
          obtain ⟨psid, pupd⟩ := p
          cases pupd with
          | agentMessageChunk content => cases content <;> simp
          | agentThoughtChunk content => cases content <;> simp
          | toolCall tid st ti co lo k => simp
          | toolCallUpdate tid st co => simp
    · rw [if_neg h2]
      by_cases h3 : method = "session/request_permission"
      · rw [if_pos h3]
        unfold requestPermissionEvents
        cases decodeSessionRequestPermissionParams ((j.get "params").getD .null) with
        | none => simp
        | some req => cases (j.get "id").bind Json.asNat <;> simp
      · rw [if_neg h3]
        simp

/-- C8: an inbound response envelope (no method member) whose result parses
with stopReason "end_turn" makes the dispatcher send exactly the
turn-finished event, which the forwarder emits as `ai-turn-finished-<sid>`
with payload `true`; an envelope whose result parses with any other
stopReason never yields a turn-finished event. -/
theorem end_turn_dispatch (sid : String) (j : Json) :
    (∀ r, j.get "method" = none → j.get "result" = some r →
      decodeSessionPromptResult r = some ⟨"end_turn"⟩ →
      handle_cli_output_line sid (some j) = [.geminiTurnFinished sid]
      ∧ forwardInternalEvent (.geminiTurnFinished sid)
          = some ("ai-turn-finished-" ++ sid, .boolean true))
    ∧ (∀ r s, j.get "result" = some r → decodeSessionPromptResult r = some ⟨s⟩ →
        s ≠ "end_turn" →
        InternalEvent.geminiTurnFinished sid ∉ handle_cli_output_line sid (some j)) := by
  constructor
  · intro r hm hr hd
    unfold handle_cli_output_line
    dsimp only
    rw [hm]
    dsimp only [Option.bind]
    rw [hr]
    dsimp only
    rw [hd]
    exact ⟨by simp, rfl⟩
  · intro r s hr hd hs
    unfold handle_cli_output_line
    dsimp only
    cases hm : (j.get "method").bind Json.asStr with
    | some m => exact methodDispatch_no_turnFinished sid m j
    | none =>
        rw [hr]
        dsimp only
        rw [hd]
        dsimp only
        rw [if_neg (by simpa using hs)]
        simp

/-- Witness for C8 at a concrete end_turn response envelope. -/
theorem end_turn_dispatch_witness :
    handle_cli_output_line "s1"
        (some (.obj [("result", .obj [("stopReason", .str "end_turn")])]))
      = [.geminiTurnFinished "s1"]
    ∧ forwardInternalEvent (.geminiTurnFinished "s1")
      = some ("ai-turn-finished-" ++ "s1", .boolean true) :=
  (end_turn_dispatch "s1"
      (.obj [("result", .obj [("stopReason", .str "end_turn")])])).1
    (.obj [("stopReason", .str "end_turn")]) rfl rfl rfl

/-! ## Claim C9: mention-parser round trip -/

/-- String eta: rebuilding a string from its characters is the identity. -/
theorem string_mk_data (s : String) : String.mk s.data = s := rfl

/-- Validity of a match list with respect to the message, from a cursor
position: each match points at an `@`, captures exactly the following
characters, ends within the message, and later matches start after it. -/
def ValidFrom (msg : List Char) : Nat → List (Nat × List Char) → Prop
  | _, [] => True
  | e, (s, tok) :: ms =>
      e ≤ s ∧ msg[s]? = some '@'
        ∧ (msg.drop (s + 1)).take tok.length = tok
        ∧ s + 1 + tok.length ≤ msg.length
        ∧ ValidFrom msg (s + 1 + tok.length) ms

/-- Validity only constrains the cursor from above, so it can be moved
back. -/
theorem validFrom_mono (msg : List Char) (a b : Nat)
    (ms : List (Nat × List Char)) (hab : a ≤ b) (h : ValidFrom msg b ms) :
    ValidFrom msg a ms := by
  cases ms with
  | nil => exact trivial
  | cons p ms =>
      obtain ⟨s, tok⟩ := p
      obtain ⟨h1, h2⟩ := h
      exact ⟨le_trans hab h1, h2⟩

/-- Rendering distributes over list append. -/
theorem renderBlocks_append (a b : List ContentBlock) :
    renderBlocks (a ++ b) = renderBlocks a ++ renderBlocks b := by
  simp [renderBlocks]

/-- Rendering of a cons. -/
theorem renderBlocks_cons (x : ContentBlock) (l : List ContentBlock) :
    renderBlocks (x :: l) = renderBlock x ++ renderBlocks l := by
  simp [renderBlocks]

/-- An optional gap-text block renders to exactly the gap. -/
theorem renderBlocks_gap (g : List Char) :
    renderBlocks (if g.isEmpty then [] else [.text (String.mk g)]) = g := by
  by_cases hg : g.isEmpty
  · rw [if_pos hg, List.isEmpty_iff.mp hg]
    simp [renderBlocks]
  · rw [if_neg hg]
    simp [renderBlocks, renderBlock]

/-- The block builder reconstructs the message from the cursor on: gap
texts, `@`-restored mentions (skipped matches merge into the next gap), and
the tail. -/
theorem renderBlocks_buildBlocks (msg : List Char)
    (ms : List (Nat × List Char)) (e : Nat)
    (hv : ValidFrom msg e ms) (he : e ≤ msg.length) :
    renderBlocks (buildBlocks msg ms e) = msg.drop e := by
  induction ms generalizing e with
  | nil =>
      simp only [buildBlocks]
      by_cases h : (msg.drop e).isEmpty
      · rw [if_pos h, List.isEmpty_iff.mp h]
        simp [renderBlocks]
      · rw [if_neg h]
        simp [renderBlocks, renderBlock]
  | cons p ms ih =>
      obtain ⟨s, tok⟩ := p
      obtain ⟨h1, h2, h3, h4, h5⟩ := hv
      have hchar : msg.drop s = '@' :: msg.drop (s + 1) := by
        rcases List.getElem?_eq_some_iff.mp h2 with ⟨hh, hgc⟩
        rw [List.drop_eq_getElem_cons hh, hgc]
      have hdtok : msg.drop (s + 1) = tok ++ msg.drop (s + 1 + tok.length) := by
        conv_lhs => rw [← List.take_append_drop tok.length (msg.drop (s + 1))]
        rw [h3, List.drop_drop]
      have hgapeq : (msg.drop e).take (s - e) ++ msg.drop s = msg.drop e := by
        have h0 : e + (s - e) = s := by omega
        conv_rhs => rw [← List.take_append_drop (s - e) (msg.drop e)]
        rw [List.drop_drop, h0]
      simp only [buildBlocks]
      by_cases hg : emailGuardSkips msg s = true
      · rw [if_pos hg]
        exact ih e (validFrom_mono msg e (s + 1 + tok.length) ms (by omega) h5) he
      · rw [if_neg hg]
        rw [renderBlocks_append, renderBlocks_gap, renderBlocks_cons,
          ih (s + 1 + tok.length) h5 h4]
        show (msg.drop e).take (s - e)
            ++ (('@' :: tok) ++ msg.drop (s + 1 + tok.length)) = msg.drop e
        rw [List.cons_append, ← hdtok, ← hchar]
        exact hgapeq

/-- Every match list the scanner produces on a suffix of the message is
valid from the suffix's start position. -/
theorem scanMentions_valid (msg : List Char) : ∀ (n : Nat) (l : List Char) (i : Nat),
    l.length ≤ n → msg.drop i = l → ValidFrom msg i (scanMentions l i) := by
  intro n
  induction n with
  | zero =>
      intro l i hn _
      have hl : l = [] := List.length_eq_zero.mp (Nat.le_zero.mp hn)
      subst hl
      rw [scanMentions]
      exact trivial
  | succ n ih =>
      intro l i hn hd
      cases l with
      | nil =>
          rw [scanMentions]
          exact trivial
      | cons c rest =>
          have hrest : rest.length ≤ n := by
            simp only [List.length_cons] at hn
            omega
          have hdi : msg.drop (i + 1) = rest := by
            have h := congrArg (List.drop 1) hd
            rw [List.drop_drop] at h
            exact h
          by_cases hc : c = '@'
          · subst hc
            by_cases hemp : (rest.takeWhile isTokenChar).isEmpty = true
            · rw [scanMentions]
              simp only [if_pos rfl, hemp, if_true]
              exact validFrom_mono msg i (i + 1) _ (by omega)
                (ih rest (i + 1) hrest hdi)
            · rw [scanMentions]
              simp only [if_pos rfl, if_true]
              rw [if_neg hemp]
              have hk : (rest.takeWhile isTokenChar).length ≤ rest.length :=
                (List.takeWhile_prefix isTokenChar).length_le
              have hlen : msg.length - (i + 1) = rest.length := by
                have h := congrArg List.length hdi
                simpa using h
              have hlen0 : msg.length - i = rest.length + 1 := by
                have h := congrArg List.length hd
                simpa using h
              refine ⟨le_refl i, ?_, ?_, ?_, ?_⟩
              · have h := List.getElem?_drop msg i 0
                rw [hd] at h
                simpa using h.symm
              · rw [hdi]
                exact (List.prefix_iff_eq_take.mp
                  (List.takeWhile_prefix isTokenChar)).symm
              · omega
              · have hdk : msg.drop (i + 1 + (rest.takeWhile isTokenChar).length)
                    = rest.drop (rest.takeWhile isTokenChar).length := by
                  have h := congrArg
                    (List.drop (rest.takeWhile isTokenChar).length) hdi
                  rw [List.drop_drop] at h
                  exact h
                refine ih _ _ (le_trans ?_ hrest) hdk
                rw [List.length_drop]
                omega
          · rw [scanMentions]
            rw [if_neg hc]
            exact validFrom_mono msg i (i + 1) _ (by omega)
              (ih rest (i + 1) hrest hdi)

/-- On a message with no `@` the scanner finds nothing. -/
theorem scanMentions_eq_nil_of_no_at : ∀ (n : Nat) (l : List Char) (i : Nat),
    l.length ≤ n → (∀ c ∈ l, c ≠ '@') → scanMentions l i = [] := by
  intro n
  induction n with
  | zero =>
      intro l i hn _
      have hl : l = [] := List.length_eq_zero.mp (Nat.le_zero.mp hn)
      subst hl
      simp [scanMentions]
  | succ n ih =>
      intro l i hn h
      cases l with
      | nil => simp [scanMentions]
      | cons c rest =>
          have hc : ¬ c = '@' := h c (List.mem_cons_self c rest)
          rw [scanMentions, if_neg hc]
          refine ih rest (i + 1) ?_ (fun x hx => h x (List.mem_cons_of_mem c hx))
          simp only [List.length_cons] at hn
          omega

/-- C9: the mention parser returns the whole input as a single text block
when the input has no `@`, and for every input the concatenation of the
text blocks and of `@` followed by each resource link's uri reconstructs
the input exactly. -/
theorem mention_parser_roundtrip :
    (∀ (message wd : String), (∀ c ∈ message.data, c ≠ '@') →
        parse_mentions_to_content_blocks message wd = [ContentBlock.text message])
    ∧ (∀ (message wd : String),
        renderBlocks (parse_mentions_to_content_blocks message wd)
          = message.data) := by
  constructor
  · intro message wd h
    unfold parse_mentions_to_content_blocks
    have hscan : scanMentions message.data 0 = [] :=
      scanMentions_eq_nil_of_no_at message.data.length message.data 0
        (le_refl _) h
    dsimp only
    rw [hscan]
    by_cases hemp : message.data.isEmpty
    · simp [buildBlocks, hemp]
    · simp [buildBlocks, hemp, string_mk_data]
  · intro message wd
    unfold parse_mentions_to_content_blocks
    have hv : ValidFrom message.data 0 (scanMentions message.data 0) :=
      scanMentions_valid message.data message.data.length message.data 0
        (le_refl _) (by simp)
    have hr := renderBlocks_buildBlocks message.data
      (scanMentions message.data 0) 0 hv (by simp)
    dsimp only
    by_cases hbe : (buildBlocks message.data (scanMentions message.data 0) 0).isEmpty
    · rw [if_pos hbe]
      simp [renderBlocks, renderBlock]
    · rw [if_neg hbe]
      simpa using hr

/-- Witness for C9: an `@`-free string stays one text block, and a string
with a path mention reconstructs exactly. -/
theorem mention_parser_roundtrip_witness :
    parse_mentions_to_content_blocks "hello world" "."
        = [ContentBlock.text "hello world"]
    ∧ renderBlocks (parse_mentions_to_content_blocks "see @src/a.rs now" ".")
        = "see @src/a.rs now".data :=
  ⟨mention_parser_roundtrip.1 "hello world" "." (by decide),
   mention_parser_roundtrip.2 "see @src/a.rs now" "."⟩

/-! ## Claim C10: registry entries survive termination and I/O-loop exit -/

/-- `kill_process` never changes the registry's key set, on success or
failure. -/
theorem kill_process_preserves_keys (reg : Registry) (id : String)
    (killCmd : KillOutput) :
    ((kill_process reg id killCmd).1).map Prod.fst = reg.map Prod.fst := by
  unfold kill_process
  cases h : lookupReg reg id with
  | none => rfl
  | some s =>
      dsimp only
      by_cases hc : s.child.isSome = true
      · rw [if_pos hc]
        exact updateReg_keys reg id _
      · rw [if_neg hc]
        cases hp : s.pid with
        | none => exact updateReg_keys reg id _
        | some pid =>
            dsimp only
            by_cases hk : (killCmd.success
                || strContains (strToLower killCmd.stderr) "no such process") = true
            · rw [if_pos hk]
              exact updateReg_keys reg id _
            · rw [if_neg hk]

/-- A registered session appears in the status snapshot. -/
theorem ofSession_mem_statuses (reg : Registry) (id : String)
    (s : PersistentSession) (h : lookupReg reg id = some s) :
    ProcessStatus.ofSession s ∈ get_process_statuses reg := by
  unfold lookupReg at h
  cases hf : reg.find? (fun p => p.1 = id) with
  | none => rw [hf] at h; simp at h
  | some p =>
      rw [hf] at h
      simp only [Option.map_some', Option.some.injEq] at h
      exact h ▸ List.mem_map_of_mem _ (List.mem_of_find?_eq_some hf)

/-- A live session with a pid, no child handle, used by the C10
counterexample and witness. -/
def c10Session : PersistentSession :=
  ⟨"c3", some "s3", some 42, 0, true, some 1, some 2, none, ".", "gemini", none⟩

/-- Counterexample for C10 as stated: after the I/O loop exits, the entry's
pid is still present (the epilogue clears only liveness, stdin and the
sender), contradicting the claim that pid is cleared after either event. -/
theorem registry_retention_claim_counterexample :
    (lookupReg (ioLoopExit [("c3", c10Session)] "c3").1 "c3").map
        PersistentSession.pid = some (some 42)
    ∧ (lookupReg (ioLoopExit [("c3", c10Session)] "c3").1 "c3").map
        PersistentSession.is_alive = some false :=
  ⟨rfl, rfl⟩

/-- C10 (amended): neither `kill_process` (on success or failure) nor the
I/O-loop exit removes a registry entry; `kill_process` on an absent id is a
silent success leaving the registry unchanged; after a successful
`kill_process` the entry survives with liveness, pid, stdin and sender
cleared, and after the I/O-loop exit it survives with liveness, stdin and
sender cleared but its pid untouched; in both cases `get_process_statuses`
still lists the conversation. -/
theorem registry_entries_never_removed (reg : Registry) (id : String)
    (killCmd : KillOutput) :
    ((kill_process reg id killCmd).1).map Prod.fst = reg.map Prod.fst
    ∧ ((ioLoopExit reg id).1).map Prod.fst = reg.map Prod.fst
    ∧ (lookupReg reg id = none → kill_process reg id killCmd = (reg, .ok ()))
    ∧ (∀ s, lookupReg reg id = some s → (kill_process reg id killCmd).2 = .ok () →
        lookupReg (kill_process reg id killCmd).1 id = some (clearKilledSession s)
        ∧ ProcessStatus.ofSession (clearKilledSession s)
            ∈ get_process_statuses (kill_process reg id killCmd).1)
    ∧ (∀ s, lookupReg reg id = some s →
        lookupReg (ioLoopExit reg id).1 id
          = some { s with is_alive := false, stdin := none, message_sender := none }
        ∧ ProcessStatus.ofSession
            { s with is_alive := false, stdin := none, message_sender := none }
            ∈ get_process_statuses (ioLoopExit reg id).1) := by
  refine ⟨kill_process_preserves_keys reg id killCmd, ?_, ?_, ?_, ?_⟩
  · simp only [ioLoopExit]
    exact updateReg_keys reg id _
  · intro h
    unfold kill_process
    rw [h]
  · intro s h hok
    have hupd := kill_process_ok_updates reg id killCmd s h hok
    have hl : lookupReg (kill_process reg id killCmd).1 id
        = some (clearKilledSession s) := by
      rw [hupd, lookupReg_updateReg_self, h]
      rfl
    exact ⟨hl, ofSession_mem_statuses _ id _ hl⟩
  · intro s h
    have hl : lookupReg (ioLoopExit reg id).1 id
        = some { s with is_alive := false, stdin := none, message_sender := none } := by
      simp only [ioLoopExit]
      rw [lookupReg_updateReg_self, h]
      rfl
    exact ⟨hl, ofSession_mem_statuses _ id _ hl⟩

/-- Witness for the amended C10 at a concrete one-session registry. -/
theorem registry_entries_never_removed_witness :
    ((kill_process [("c3", c10Session)] "c3" ⟨true, ""⟩).1).map Prod.fst
        = [("c3", c10Session)].map Prod.fst
    ∧ lookupReg (kill_process [("c3", c10Session)] "c3" ⟨true, ""⟩).1 "c3"
        = some (clearKilledSession c10Session)
    ∧ ProcessStatus.ofSession (clearKilledSession c10Session)
        ∈ get_process_statuses (kill_process [("c3", c10Session)] "c3" ⟨true, ""⟩).1
    ∧ kill_process [("c3", c10Session)] "absent" ⟨true, ""⟩
        = ([("c3", c10Session)], .ok ())
    ∧ lookupReg (ioLoopExit [("c3", c10Session)] "c3").1 "c3"
        = some { c10Session with is_alive := false, stdin := none, message_sender := none } :=
  ⟨(registry_entries_never_removed [("c3", c10Session)] "c3" ⟨true, ""⟩).1,
   ((registry_entries_never_removed [("c3", c10Session)] "c3" ⟨true, ""⟩).2.2.2.1
      c10Session rfl rfl).1,
   ((registry_entries_never_removed [("c3", c10Session)] "c3" ⟨true, ""⟩).2.2.2.1
      c10Session rfl rfl).2,
   (registry_entries_never_removed [("c3", c10Session)] "absent" ⟨true, ""⟩).2.2.1 rfl,
   ((registry_entries_never_removed [("c3", c10Session)] "c3" ⟨true, ""⟩).2.2.2.2
      c10Session rfl).1⟩

end GeminiDesktop
